import Mathlib

/-! TrenchBroom: brush geometry results, BSP29 model parser, ENT definition parser

A shallow embedding of

* `src/src/Model/BrushGeometry.h` (`BrushGeometry::Result`, `BrushGeometry`),
* `src/common/src/IO/Bsp29Parser.cpp` (`canParse`, `initializeModel`, `loadFrame`),
* `src/common/src/io/EntParser.cpp` (`EntParser::parseClassInfos`,
  `parseClassInfosFromDocument` and the functions it calls),

followed by the properties established about them.
-/

set_option autoImplicit false

namespace TrenchBroom
namespace Model

/-! ## Definitions: `BrushGeometry::Result` -/

/-- A `BrushFace*`: faces are compared by identity (the pointer value). -/
abbrev BrushFace := Nat

/-- The `BrushFaceList` typedef: `std::vector<BrushFace*>`. -/
abbrev BrushFaceList := List BrushFace

/-- The default argument `EmptyBrushFaceList` of the `Result` constructor. -/
def EmptyBrushFaceList : BrushFaceList := []

/-- The enum `BrushGeometry::AddFaceResultCode`. -/
inductive AddFaceResultCode where
  | BrushIsSplit
  | BrushIsNull
  | FaceIsRedundant
  deriving DecidableEq, Repr

namespace VectorUtils

/-- Modelled from the spec: `VectorUtils::contains` of `CollectionUtils.h`, which is not
under `src/`; a linear search for an element equal to `x`. -/
def contains (vec : BrushFaceList) (x : BrushFace) : Bool :=
  match vec with
  | [] => false
  | y :: ys => if y = x then true else contains ys x

/-- Modelled from the spec: `VectorUtils::difference` of `CollectionUtils.h`, which is not
under `src/`; `difference(v, m)` walks `v` front to back and keeps the elements of `v`
that are not in `m`. -/
def difference (vec minus : BrushFaceList) : BrushFaceList :=
  match vec with
  | [] => []
  | x :: xs => if contains minus x then difference xs minus else x :: difference xs minus

/-- Modelled from the spec: `VectorUtils::concatenate` of `CollectionUtils.h`, which is not
under `src/`; `concatenate(v, w)` appends the elements of `w` to `v`. -/
def concatenate (vec other : BrushFaceList) : BrushFaceList :=
  vec ++ other

end VectorUtils

/-- The struct template `BrushGeometry::Result<T>`. -/
structure Result (T : Type) where
  resultCode : T
  addedFaces : BrushFaceList
  droppedFaces : BrushFaceList
  deriving DecidableEq, Repr

namespace Result

variable {T : Type}

/-- The constructor `Result(i_resultCode, i_addedFaces = EmptyBrushFaceList,
i_droppedFaces = EmptyBrushFaceList)` called with a result code alone. -/
def ofCode (i_resultCode : T) : Result T :=
  { resultCode := i_resultCode
    addedFaces := EmptyBrushFaceList
    droppedFaces := EmptyBrushFaceList }

/-- The member `void append(const Result<T>& other)`: the value of `*this` after the call.
`other` is a distinct object, read only. -/
def append (self other : Result T) : Result T :=
  -- addedFaces = VectorUtils::difference(addedFaces, other.droppedFaces);
  let addedFaces1 := VectorUtils.difference self.addedFaces other.droppedFaces
  -- VectorUtils::concatenate(addedFaces, other.addedFaces);
  let addedFaces2 := VectorUtils.concatenate addedFaces1 other.addedFaces
  -- droppedFaces = VectorUtils::difference(droppedFaces, other.addedFaces);
  let droppedFaces1 := VectorUtils.difference self.droppedFaces other.addedFaces
  -- VectorUtils::concatenate(droppedFaces, other.droppedFaces);
  let droppedFaces2 := VectorUtils.concatenate droppedFaces1 other.droppedFaces
  { resultCode := self.resultCode
    addedFaces := addedFaces2
    droppedFaces := droppedFaces2 }

end Result

/-- The call `a.append(b)` on two distinct objects, as a step on the pair of their values
`(a, b)`: the member assigns to the members of `*this` only, and `other` is a reference to
const that it only reads. -/
def Result.appendCall {T : Type} (objects : Result T × Result T) : Result T × Result T :=
  (objects.1.append objects.2, objects.2)

/-- The typedef `AddFaceResult = Result<AddFaceResultCode>`. -/
abbrev AddFaceResult := Result AddFaceResultCode

/-- A face list read as the set of the face identities it holds. -/
def faceSet (faces : BrushFaceList) : Set BrushFace :=
  {f | f ∈ faces}

/-- The polyhedron's face set after a step that reports `r`, started from face set `S`:
the union of `S` and `addedFaces`, minus `droppedFaces`. -/
def applyDelta {T : Type} (S : Set BrushFace) (r : Result T) : Set BrushFace :=
  (S ∪ faceSet r.addedFaces) \ faceSet r.droppedFaces

/-- A step result that adds face 3 and drops face 1. -/
def sampleStepA : AddFaceResult :=
  { resultCode := AddFaceResultCode.BrushIsSplit, addedFaces := [3], droppedFaces := [1] }

/-- A step result that adds face 4 and drops face 3. -/
def sampleStepB : AddFaceResult :=
  { resultCode := AddFaceResultCode.BrushIsSplit, addedFaces := [4], droppedFaces := [3] }

/-- A step result that adds face 1 and drops nothing. -/
def addsFaceOne : AddFaceResult :=
  { resultCode := AddFaceResultCode.BrushIsSplit, addedFaces := [1], droppedFaces := [] }

/-- A step result that drops face 1 and adds nothing. -/
def dropsFaceOne : AddFaceResult :=
  { resultCode := AddFaceResultCode.BrushIsSplit, addedFaces := [], droppedFaces := [1] }

/-! ## Definitions: `BrushGeometry` and the face-addition algorithm -/

/-- Modelled from the spec: the outcome of the Tolerance Policy's `classifyPoint(p, plane)`
(spec 4.1); the policy itself is not under `src/`. -/
inductive PointStatus where
  | Inside
  | Outside
  | On
  deriving DecidableEq, Repr

/-- The data members of `class BrushGeometry`: `m_vertices`, `m_edges`, `m_sides`,
`m_bounds`. The element types `BrushVertex`, `BrushEdge`, `BrushFaceGeometry` and `BBox3`
are declared in headers that are not under `src/`; they are the parameters `V`, `E`, `S`
and `B`. -/
structure BrushGeometry (V E S B : Type) where
  m_vertices : List V
  m_edges : List E
  m_sides : List S
  m_bounds : B

namespace BrushGeometry

variable {V E S B : Type}

/-- The accessor `const BBox3& bounds() const`. -/
def bounds (g : BrushGeometry V E S B) : B := g.m_bounds

/-- The accessor `const BrushVertexList& vertices() const`. -/
def vertices (g : BrushGeometry V E S B) : List V := g.m_vertices

/-- The accessor `const BrushEdgeList& edges() const`. -/
def edges (g : BrushGeometry V E S B) : List E := g.m_edges

/-- The accessor `const BrushFaceGeometryList& sides() const`. -/
def sides (g : BrushGeometry V E S B) : List S := g.m_sides

/-- Modelled from the spec: the geometric primitives the face-addition algorithm of spec
4.3 relies on, none of which is under `src/`. `classifyPoint` is the Tolerance Policy's
deterministic, total classification of a vertex against the plane of a face (spec 4.1).
`clip` is step 4: it cuts the polyhedron at the plane and yields the clipped polyhedron
with the faces created and the faces fully dropped, or nothing when the new face
degenerates to zero area. `boundsOf` recomputes the bounds from a vertex set (step 5). -/
structure FaceAdditionKernel (V E S B : Type) where
  classifyPoint : V → BrushFace → PointStatus
  clip : BrushGeometry V E S B → BrushFace →
    Option (BrushGeometry V E S B × BrushFaceList × BrushFaceList)
  boundsOf : List V → B

/-- Modelled from the spec: the recognisably empty state, zero vertices, edges and faces
(spec 4.3, `BrushIsNull`). -/
def emptied (g : BrushGeometry V E S B) : BrushGeometry V E S B :=
  { g with m_vertices := [], m_edges := [], m_sides := [] }

/-- Modelled from the spec: whether the polyhedron is in the empty state. -/
def isNull (g : BrushGeometry V E S B) : Bool :=
  g.m_vertices.isEmpty && g.m_edges.isEmpty && g.m_sides.isEmpty

/-- Modelled from the spec: `BrushGeometry::addFace`, declared in `BrushGeometry.h` and
defined in a file that is not under `src/`; steps 1 to 5 of the algorithm of spec 4.3 for
one half-space, preceded by the rule of spec 8 (null monotonicity) that a half-space added
to the empty state yields `BrushIsNull`. Returns the step result and the geometry after
the step. -/
def addFace (k : FaceAdditionKernel V E S B) (g : BrushGeometry V E S B) (face : BrushFace) :
    AddFaceResult × BrushGeometry V E S B :=
  -- null monotonicity: the empty state stays empty
  if isNull g then
    (Result.ofCode AddFaceResultCode.BrushIsNull, g)
  else
    -- 1. classify every existing vertex against the new plane
    let statuses := g.m_vertices.map (fun v => k.classifyPoint v face)
    -- 2. all vertices Inside/On: FaceIsRedundant, no geometric change
    if statuses.all (fun s => decide (s = PointStatus.Inside ∨ s = PointStatus.On)) then
      (Result.ofCode AddFaceResultCode.FaceIsRedundant, g)
    -- 3. all vertices Outside/On, none strictly Inside: BrushIsNull, left empty
    else if statuses.all (fun s => decide (s = PointStatus.Outside ∨ s = PointStatus.On)) then
      (Result.ofCode AddFaceResultCode.BrushIsNull, emptied g)
    else
      -- 4. mixed: clip
      match k.clip g face with
      | none => (Result.ofCode AddFaceResultCode.FaceIsRedundant, g)
      | some (clipped, added, dropped) =>
        -- 5. recompute bounds, return Split with the faces created and dropped
        ({ resultCode := AddFaceResultCode.BrushIsSplit
           addedFaces := added
           droppedFaces := dropped },
         { clipped with m_bounds := k.boundsOf clipped.m_vertices })

/-- Modelled from the spec: the result code of a running batch result after one more step
(spec 4.3, `AddResult`): `BrushIsNull` once the intersection with the new half-spaces is
empty, `FaceIsRedundant` while the polyhedron is unchanged, `BrushIsSplit` otherwise. -/
def mergeCode (running step : AddFaceResultCode) : AddFaceResultCode :=
  match running, step with
  | AddFaceResultCode.BrushIsNull, _ => AddFaceResultCode.BrushIsNull
  | _, AddFaceResultCode.BrushIsNull => AddFaceResultCode.BrushIsNull
  | AddFaceResultCode.FaceIsRedundant, c => c
  | AddFaceResultCode.BrushIsSplit, _ => AddFaceResultCode.BrushIsSplit

/-- Modelled from the spec: composing one step into the running batch result; the face
lists by the merge rule `Result::append`, the code by `mergeCode`. -/
def mergeStep (running step : AddFaceResult) : AddFaceResult :=
  { running.append step with resultCode := mergeCode running.resultCode step.resultCode }

/-- Modelled from the spec: the loop of `BrushGeometry::addFaces` from a given running
result; the algorithm is repeated once per half-space in input order and each step result
is composed with the running result. -/
def addFacesFrom (k : FaceAdditionKernel V E S B) :
    AddFaceResult → BrushGeometry V E S B → BrushFaceList → AddFaceResult × BrushGeometry V E S B
  | running, g, [] => (running, g)
  | running, g, face :: rest =>
    addFacesFrom k (mergeStep running (addFace k g face).1) (addFace k g face).2 rest

/-- Modelled from the spec: `BrushGeometry::addFaces`, declared in `BrushGeometry.h` and
defined in a file that is not under `src/`; an explicit fold over the half-spaces that
starts from the empty delta (spec 4.3 and 9). -/
def addFaces (k : FaceAdditionKernel V E S B) (g : BrushGeometry V E S B)
    (faces : BrushFaceList) : AddFaceResult × BrushGeometry V E S B :=
  addFacesFrom k (Result.ofCode AddFaceResultCode.FaceIsRedundant) g faces

end BrushGeometry

/-- A kernel on a line: a vertex is an integer position, the plane of face `f` bounds the
half-line of the positions up to `f`, and clipping moves every vertex beyond `f` back to
`f`. -/
def lineKernel : BrushGeometry.FaceAdditionKernel Int Nat Nat (Int × Int) where
  classifyPoint := fun v f =>
    if v < (f : Int) then PointStatus.Inside
    else if v = (f : Int) then PointStatus.On
    else PointStatus.Outside
  clip := fun g f =>
    some ({ g with m_vertices := g.m_vertices.map (fun v => min v (f : Int)) }, [f], [])
  boundsOf := fun vs => (vs.foldl min 0, vs.foldl max 0)

/-- A segment from 2 to 5 on the line. -/
def lineSegment : BrushGeometry Int Nat Nat (Int × Int) :=
  { m_vertices := [2, 5], m_edges := [0], m_sides := [10, 11], m_bounds := (2, 5) }

end Model

/-! ## Definitions: `Bsp29Parser` (C++ namespace `TrenchBroom::IO`) -/

/-- The exception classes of `Exceptions.h` that the parser code raises or lets through,
each with its `what()` message. -/
inductive Exception where
  | AssetException (what : String)
  | ReaderException (what : String)
  | FileSystemException (what : String)
  deriving DecidableEq, Repr

namespace BspLayout

def DirTexturesAddress : Nat := 0x14
def DirVerticesAddress : Nat := 0x1C
def DirTexInfosAddress : Nat := 0x34
def DirFacesAddress : Nat := 0x3C
def DirEdgesAddress : Nat := 0x64
def DirFaceEdgesAddress : Nat := 0x6C
def DirModelAddress : Nat := 0x74
def FaceSize : Nat := 0x14
def TexInfoSize : Nat := 0x28
def FaceEdgeSize : Nat := 0x4
def ModelSize : Nat := 0x40

end BspLayout

/-- The types the parser handles that are declared in headers not under `src/`:
`IO::Reader`, `Assets::EntityModel`, `Assets::Texture`, `vm::vec3f`, and the file-local
records `TextureInfo`, `EdgeInfo`, `FaceInfo` whose fields are floats and indices. -/
structure Bsp29Types where
  Reader : Type
  EntityModel : Type
  Texture : Type
  TextureInfo : Type
  Vec3f : Type
  EdgeInfo : Type
  FaceInfo : Type

/-- What `canParse`, `initializeModel` and `loadFrame` call: the operations of
`IO::Reader` (a reader is a value; an operation returns the value read and the advanced
reader, or the exception it raises), the file-local helpers `parseTextures` to
`parseFrame` (with the palette, file system and logger they are passed), and the
operations of `Assets::EntityModel`. `parseFrame` returns the model as it leaves it, also
when it raises. -/
structure Collaborators (τ : Bsp29Types) where
  readInt32 : τ.Reader → Except Exception (Int × τ.Reader)
  readSize32 : τ.Reader → Except Exception (Nat × τ.Reader)
  seekFromBegin : τ.Reader → Nat → Except Exception τ.Reader
  subReaderFromBegin : τ.Reader → Nat → Except Exception τ.Reader
  subReaderFromBeginLength : τ.Reader → Nat → Nat → Except Exception τ.Reader
  parseTextures : τ.Reader → Except Exception (List τ.Texture)
  parseTextureInfos : τ.Reader → Nat → Except Exception (List τ.TextureInfo)
  parseVertices : τ.Reader → Nat → Except Exception (List τ.Vec3f)
  parseEdgeInfos : τ.Reader → Nat → Except Exception (List τ.EdgeInfo)
  parseFaceInfos : τ.Reader → Nat → Except Exception (List τ.FaceInfo)
  parseFaceEdges : τ.Reader → Nat → Except Exception (List Int)
  parseFrame : τ.Reader → Nat → τ.EntityModel → List τ.TextureInfo → List τ.Vec3f →
    List τ.EdgeInfo → List τ.FaceInfo → List Int → Except Exception Unit × τ.EntityModel
  makeModel : String → τ.EntityModel
  addFrame : τ.EntityModel → τ.EntityModel
  addSurfaceWithSkins : τ.EntityModel → String → List τ.Texture → τ.EntityModel

/-- One observable action of a run: an operation on a reader or a call of a helper. -/
inductive Action where
  | readInt32
  | readSize32
  | seekFromBegin (position : Nat)
  | subReaderFromBegin (position : Nat)
  | subReaderFromBeginLength (position length : Nat)
  | call (helper : String)
  deriving DecidableEq, Repr

/-- The state a run threads: the actions performed so far, in order, and the entity model
the caller passed by reference. -/
structure RunState (M : Type) where
  actions : List Action
  model : M

/-- A run: from a state to a value or a raised exception, and the state it leaves. -/
def Run (M α : Type) : Type :=
  RunState M → Except Exception α × RunState M

namespace Run

variable {M α β : Type}

def ret (a : α) : Run M α :=
  fun s => (Except.ok a, s)

def raise (e : Exception) : Run M α :=
  fun s => (Except.error e, s)

def andThen (m : Run M α) (f : α → Run M β) : Run M β :=
  fun s =>
    match m s with
    | (Except.ok a, s1) => f a s1
    | (Except.error e, s1) => (Except.error e, s1)

instance : Monad (Run M) where
  pure := ret
  bind := andThen

/-- Perform a collaborator's operation `op`, recording `action`. -/
def perform (action : Action) (op : Except Exception α) : Run M α :=
  fun s => (op, { s with actions := s.actions ++ [action] })

/-- Call a helper that works on the model passed by reference, recording `action`. -/
def performOnModel (action : Action) (op : M → Except Exception α × M) : Run M α :=
  fun s => ((op s.model).1, { actions := s.actions ++ [action], model := (op s.model).2 })

end Run

/-- A `std::filesystem::path` as far as the parser looks at it: the string that
`path.extension().string()` returns. -/
structure Path where
  extension : String

/-- Modelled from the spec: `kdl::str_to_lower` of `kdl/string_format.h`, which is not
under `src/`; the string with its characters lower-cased. -/
def str_to_lower (str : String) : String :=
  String.mk (str.data.map Char.toLower)

/-- Arithmetic of `size_t` values wraps at 64 bits. -/
def wrapSize (n : Nat) : Nat :=
  n % 2 ^ 64

/-- The data members of `class Bsp29Parser` that the three functions read: `m_name` and
`m_reader`; `m_palette` and `m_fs` are only handed on to `parseTextures`. -/
structure Bsp29Parser (τ : Bsp29Types) where
  m_name : String
  m_reader : τ.Reader

namespace Bsp29Parser

variable {τ : Bsp29Types}

/-- The message of the exception raised for a version other than 29:
`"Unsupported BSP model version: " + std::to_string(version)`. -/
def unsupportedVersion (version : Int) : Exception :=
  Exception.AssetException ("Unsupported BSP model version: " ++ toString version)

/-- The static member `bool Bsp29Parser::canParse(const std::filesystem::path& path,
Reader reader)`. -/
def canParse (c : Collaborators τ) (path : Path) (reader : τ.Reader) :
    Run τ.EntityModel Bool :=
  if str_to_lower path.extension ≠ ".bsp" then
    pure false
  else do
    let (version, _) ← Run.perform Action.readInt32 (c.readInt32 reader)
    pure (decide (version = 29))

/-- The member `std::unique_ptr<Assets::EntityModel> Bsp29Parser::initializeModel(Logger&)`. -/
def initializeModel (c : Collaborators τ) (self : Bsp29Parser τ) :
    Run τ.EntityModel τ.EntityModel := do
  let reader := self.m_reader
  let (version, reader) ← Run.perform Action.readInt32 (c.readInt32 reader)
  if version ≠ 29 then
    Run.raise (unsupportedVersion version)
  else do
    let reader ← Run.perform (Action.seekFromBegin BspLayout.DirTexturesAddress)
      (c.seekFromBegin reader BspLayout.DirTexturesAddress)
    let (textureOffset, reader) ← Run.perform Action.readSize32 (c.readSize32 reader)
    let reader ← Run.perform (Action.seekFromBegin BspLayout.DirModelAddress)
      (c.seekFromBegin reader BspLayout.DirModelAddress)
    let (_, reader) ← Run.perform Action.readSize32 (c.readSize32 reader)
    let (modelsLength, reader) ← Run.perform Action.readSize32 (c.readSize32 reader)
    let frameCount := modelsLength / BspLayout.ModelSize
    let textureReader ← Run.perform (Action.subReaderFromBegin textureOffset)
      (c.subReaderFromBegin reader textureOffset)
    let textures ← Run.perform (Action.call "parseTextures") (c.parseTextures textureReader)
    let model := c.makeModel self.m_name
    let model := Nat.iterate c.addFrame frameCount model
    let model := c.addSurfaceWithSkins model self.m_name textures
    pure model

/-- The member `void Bsp29Parser::loadFrame(size_t frameIndex, Assets::EntityModel& model,
Logger&)`; the model is the one of the run state. -/
def loadFrame (c : Collaborators τ) (self : Bsp29Parser τ) (frameIndex : Nat) :
    Run τ.EntityModel Unit := do
  let reader := self.m_reader
  let (version, reader) ← Run.perform Action.readInt32 (c.readInt32 reader)
  if version ≠ 29 then
    Run.raise (unsupportedVersion version)
  else do
    let reader ← Run.perform (Action.seekFromBegin BspLayout.DirTexturesAddress)
      (c.seekFromBegin reader BspLayout.DirTexturesAddress)
    let (_, reader) ← Run.perform Action.readSize32 (c.readSize32 reader)
    let (_, reader) ← Run.perform Action.readSize32 (c.readSize32 reader)

    let reader ← Run.perform (Action.seekFromBegin BspLayout.DirTexInfosAddress)
      (c.seekFromBegin reader BspLayout.DirTexInfosAddress)
    let (textureInfoOffset, reader) ← Run.perform Action.readSize32 (c.readSize32 reader)
    let (textureInfoLength, reader) ← Run.perform Action.readSize32 (c.readSize32 reader)
    let textureInfoCount := textureInfoLength / BspLayout.TexInfoSize

    let reader ← Run.perform (Action.seekFromBegin BspLayout.DirVerticesAddress)
      (c.seekFromBegin reader BspLayout.DirVerticesAddress)
    let (vertexOffset, reader) ← Run.perform Action.readSize32 (c.readSize32 reader)
    let (vertexLength, reader) ← Run.perform Action.readSize32 (c.readSize32 reader)
    let vertexCount := vertexLength / (3 * 4)

    let reader ← Run.perform (Action.seekFromBegin BspLayout.DirEdgesAddress)
      (c.seekFromBegin reader BspLayout.DirEdgesAddress)
    let (edgeInfoOffset, reader) ← Run.perform Action.readSize32 (c.readSize32 reader)
    let (edgeInfoLength, reader) ← Run.perform Action.readSize32 (c.readSize32 reader)
    let edgeInfoCount := edgeInfoLength / (2 * 2)

    let reader ← Run.perform (Action.seekFromBegin BspLayout.DirFacesAddress)
      (c.seekFromBegin reader BspLayout.DirFacesAddress)
    let (faceInfoOffset, reader) ← Run.perform Action.readSize32 (c.readSize32 reader)
    let (faceInfoLength, reader) ← Run.perform Action.readSize32 (c.readSize32 reader)
    let faceInfoCount := faceInfoLength / BspLayout.FaceSize

    let reader ← Run.perform (Action.seekFromBegin BspLayout.DirFaceEdgesAddress)
      (c.seekFromBegin reader BspLayout.DirFaceEdgesAddress)
    let (faceEdgesOffset, reader) ← Run.perform Action.readSize32 (c.readSize32 reader)
    let (faceEdgesLength, reader) ← Run.perform Action.readSize32 (c.readSize32 reader)
    let faceEdgesCount := faceEdgesLength / BspLayout.FaceEdgeSize

    let reader ← Run.perform (Action.seekFromBegin BspLayout.DirModelAddress)
      (c.seekFromBegin reader BspLayout.DirModelAddress)
    let (modelsOffset, reader) ← Run.perform Action.readSize32 (c.readSize32 reader)

    let subReader ← Run.perform (Action.subReaderFromBegin textureInfoOffset)
      (c.subReaderFromBegin reader textureInfoOffset)
    let textureInfos ← Run.perform (Action.call "parseTextureInfos")
      (c.parseTextureInfos subReader textureInfoCount)
    let subReader ← Run.perform (Action.subReaderFromBegin vertexOffset)
      (c.subReaderFromBegin reader vertexOffset)
    let vertices ← Run.perform (Action.call "parseVertices")
      (c.parseVertices subReader vertexCount)
    let subReader ← Run.perform (Action.subReaderFromBegin edgeInfoOffset)
      (c.subReaderFromBegin reader edgeInfoOffset)
    let edgeInfos ← Run.perform (Action.call "parseEdgeInfos")
      (c.parseEdgeInfos subReader edgeInfoCount)
    let subReader ← Run.perform (Action.subReaderFromBegin faceInfoOffset)
      (c.subReaderFromBegin reader faceInfoOffset)
    let faceInfos ← Run.perform (Action.call "parseFaceInfos")
      (c.parseFaceInfos subReader faceInfoCount)
    let subReader ← Run.perform (Action.subReaderFromBegin faceEdgesOffset)
      (c.subReaderFromBegin reader faceEdgesOffset)
    let faceEdges ← Run.perform (Action.call "parseFaceEdges")
      (c.parseFaceEdges subReader faceEdgesCount)

    let frameAddress := wrapSize (modelsOffset + wrapSize (frameIndex * BspLayout.ModelSize))
    let subReader ← Run.perform
      (Action.subReaderFromBeginLength frameAddress BspLayout.ModelSize)
      (c.subReaderFromBeginLength reader frameAddress BspLayout.ModelSize)
    Run.performOnModel (Action.call "parseFrame") (fun model =>
      c.parseFrame subReader frameIndex model textureInfos vertices edgeInfos faceInfos
        faceEdges)

end Bsp29Parser

/-- No operation of the collaborators raises the exception that the version check raises
for `version`. -/
structure Collaborators.Quiet {τ : Bsp29Types} (c : Collaborators τ) (version : Int) : Prop where
  readInt32 : ∀ r, c.readInt32 r ≠ Except.error (Bsp29Parser.unsupportedVersion version)
  readSize32 : ∀ r, c.readSize32 r ≠ Except.error (Bsp29Parser.unsupportedVersion version)
  seekFromBegin :
    ∀ r n, c.seekFromBegin r n ≠ Except.error (Bsp29Parser.unsupportedVersion version)
  subReaderFromBegin :
    ∀ r n, c.subReaderFromBegin r n ≠ Except.error (Bsp29Parser.unsupportedVersion version)
  subReaderFromBeginLength : ∀ r n l,
    c.subReaderFromBeginLength r n l ≠ Except.error (Bsp29Parser.unsupportedVersion version)
  parseTextures :
    ∀ r, c.parseTextures r ≠ Except.error (Bsp29Parser.unsupportedVersion version)
  parseTextureInfos :
    ∀ r n, c.parseTextureInfos r n ≠ Except.error (Bsp29Parser.unsupportedVersion version)
  parseVertices :
    ∀ r n, c.parseVertices r n ≠ Except.error (Bsp29Parser.unsupportedVersion version)
  parseEdgeInfos :
    ∀ r n, c.parseEdgeInfos r n ≠ Except.error (Bsp29Parser.unsupportedVersion version)
  parseFaceInfos :
    ∀ r n, c.parseFaceInfos r n ≠ Except.error (Bsp29Parser.unsupportedVersion version)
  parseFaceEdges :
    ∀ r n, c.parseFaceEdges r n ≠ Except.error (Bsp29Parser.unsupportedVersion version)
  parseFrame : ∀ r i m ti vs ei fi fe,
    (c.parseFrame r i m ti vs ei fi fe).1
      ≠ Except.error (Bsp29Parser.unsupportedVersion version)

/-- A run never raises the exception that the version check raises for `version`. -/
def Run.Quiet {M α : Type} (m : Run M α) (version : Int) : Prop :=
  ∀ s, (m s).1 ≠ Except.error (Bsp29Parser.unsupportedVersion version)

/-- Readers over a list of 32-bit words, models that are a list of the frames loaded. -/
@[reducible]
def wordTypes : Bsp29Types where
  Reader := List Int
  EntityModel := List Nat
  Texture := Unit
  TextureInfo := Unit
  Vec3f := Unit
  EdgeInfo := Unit
  FaceInfo := Unit

/-- Collaborators over `wordTypes`: a read takes the next word, a seek or sub-reader drops
the words before the position, the table helpers find empty tables, and `parseFrame`
records the frame index in the model. -/
def wordCollaborators : Collaborators wordTypes where
  readInt32 := fun r =>
    match r with
    | [] => Except.error (Exception.ReaderException "Read past end")
    | w :: ws => Except.ok (w, ws)
  readSize32 := fun r =>
    match r with
    | [] => Except.error (Exception.ReaderException "Read past end")
    | w :: ws => Except.ok (w.toNat, ws)
  seekFromBegin := fun r _ => Except.ok r
  subReaderFromBegin := fun r _ => Except.ok r
  subReaderFromBeginLength := fun r _ _ => Except.ok r
  parseTextures := fun _ => Except.ok []
  parseTextureInfos := fun _ _ => Except.ok []
  parseVertices := fun _ _ => Except.ok []
  parseEdgeInfos := fun _ _ => Except.ok []
  parseFaceInfos := fun _ _ => Except.ok []
  parseFaceEdges := fun _ _ => Except.ok []
  parseFrame := fun _ i m _ _ _ _ _ => (Except.ok (), m ++ [i])
  makeModel := fun _ => []
  addFrame := fun m => m
  addSurfaceWithSkins := fun m _ _ => m

/-- A parser whose reader starts with the version word 30. -/
def version30Parser : Bsp29Parser wordTypes :=
  { m_name := "model", m_reader := [30, 0, 0] }

/-- A run state with no action performed and a model holding frame 7. -/
def freshState : RunState (List Nat) :=
  { actions := [], model := [7] }

end TrenchBroom

/-! ## Definitions: `EntParser` (C++ namespace `tb::io`) -/

namespace tb

/-- A `FileLocation{line}`. -/
structure FileLocation where
  line : Nat
  deriving DecidableEq, Repr

/-- A `ParserException{location, str}`. -/
structure ParserException where
  location : FileLocation
  what : String
  deriving DecidableEq, Repr

/-- A `ParserStatus` as far as the parser changes it: the warnings given to
`status.warn`, in order, each with the location it was given, if any. -/
structure ParserStatus where
  warnings : List (Option FileLocation × String)
  deriving DecidableEq, Repr

/-- The enum `tinyxml2::XMLError`. -/
inductive XMLError where
  | XML_SUCCESS
  | XML_NO_ATTRIBUTE
  | XML_WRONG_ATTRIBUTE_TYPE
  | XML_ERROR_FILE_NOT_FOUND
  | XML_ERROR_FILE_COULD_NOT_BE_OPENED
  | XML_ERROR_FILE_READ_ERROR
  | XML_ERROR_PARSING_ELEMENT
  | XML_ERROR_PARSING_ATTRIBUTE
  | XML_ERROR_PARSING_TEXT
  | XML_ERROR_PARSING_CDATA
  | XML_ERROR_PARSING_COMMENT
  | XML_ERROR_PARSING_DECLARATION
  | XML_ERROR_PARSING_UNKNOWN
  | XML_ERROR_EMPTY_DOCUMENT
  | XML_ERROR_MISMATCHED_ELEMENT
  | XML_ERROR_PARSING
  | XML_CAN_NOT_CONVERT_TEXT
  | XML_NO_TEXT_NODE
  | XML_ELEMENT_DEPTH_EXCEEDED
  deriving DecidableEq, Repr

/-- A `tinyxml2::XMLDocument` after `Parse`: the error state that `ErrorID()`,
`ErrorLineNum()` and `ErrorStr()` report, and the parsed content. -/
structure XMLDocument (Content : Type) where
  errorID : XMLError
  errorLineNum : Int
  errorStr : String
  content : Content

/-- The member `bool XMLDocument::Error() const`: the error id is not `XML_SUCCESS`. -/
def XMLDocument.Error {Content : Type} (doc : XMLDocument Content) : Bool :=
  decide (doc.errorID ≠ XMLError.XML_SUCCESS)

/-- The conversion `static_cast<size_t>(n)` of an `int`: the value modulo `2 ^ 64`. -/
def static_cast_size_t (n : Int) : Nat :=
  (n % 2 ^ 64).toNat

/-- The data member of `class EntParser` that `parseClassInfos` reads: `m_str`. -/
structure EntParser where
  m_str : String

/-- The member `std::vector<EntityDefinitionClassInfo>
EntParser::parseClassInfos(ParserStatus& status)`: the list returned or the exception
raised, and the parser status afterwards. `xmlParse` is `tinyxml2::XMLDocument::Parse` on a
fresh document; `parseClassInfosFromDocument` is the file-local function of that name,
which the member calls with the document and the status. -/
def EntParser.parseClassInfos {Content ClassInfo : Type}
    (xmlParse : String → XMLDocument Content)
    (parseClassInfosFromDocument : XMLDocument Content → ParserStatus →
      Except ParserException (List ClassInfo) × ParserStatus)
    (self : EntParser) (status : ParserStatus) :
    Except ParserException (List ClassInfo) × ParserStatus :=
  let doc := xmlParse self.m_str
  if doc.Error then
    if doc.errorID = XMLError.XML_ERROR_EMPTY_DOCUMENT then
      -- we allow empty documents
      (Except.ok [], status)
    else
      let line := static_cast_size_t doc.errorLineNum
      (Except.error { location := { line := line }, what := doc.errorStr }, status)
  else
    parseClassInfosFromDocument doc status

/-- A stand-in for the XML parse: the empty string is an empty document, a string that
starts with `<` parses, anything else is a parse error on line 3. -/
def sampleParse (str : String) : XMLDocument String :=
  match str.data with
  | [] =>
    { errorID := XMLError.XML_ERROR_EMPTY_DOCUMENT, errorLineNum := 0,
      errorStr := "Error=XML_ERROR_EMPTY_DOCUMENT", content := "" }
  | c :: _ =>
    if c = '<' then
      { errorID := XMLError.XML_SUCCESS, errorLineNum := 0, errorStr := "", content := str }
    else
      { errorID := XMLError.XML_ERROR_PARSING_TEXT, errorLineNum := 3,
        errorStr := "Error=XML_ERROR_PARSING_TEXT", content := "" }

/-- A stand-in for `parseClassInfosFromDocument`: one class info, the document's content,
and one warning. -/
def sampleFromDocument (doc : XMLDocument String) (status : ParserStatus) :
    Except ParserException (List String) × ParserStatus :=
  (Except.ok [doc.content], { warnings := status.warnings ++ [(none, "seen")] })

/-! ### The XML tree and the helpers of `EntParser.cpp` -/

/-- A `tinyxml2::XMLNode` below the document: an element with its name (`Name()`), line
(`GetLineNum()`), attributes in order and children in order, a text node with its value,
or a node of another kind (comment, declaration, unknown). -/
inductive XMLNode where
  | element (name : String) (lineNum : Int) (attributes : List (String × String))
      (children : List XMLNode)
  | text (value : String)
  | other (value : String)
  deriving Repr

/-- A `tinyxml2::XMLElement`: what the `element` constructor of `XMLNode` holds. -/
structure XMLElement where
  name : String
  lineNum : Int
  attributes : List (String × String)
  children : List XMLNode
  deriving Repr

/-- The member `XMLNode::ToElement()`: the node as an element, if it is one. -/
def XMLNode.ToElement : XMLNode → Option XMLElement
  | XMLNode.element name lineNum attributes children =>
    some { name := name, lineNum := lineNum, attributes := attributes, children := children }
  | _ => none

/-- The member `XMLNode::ToText()`, with the `Value()` of the text node. -/
def XMLNode.ToText : XMLNode → Option String
  | XMLNode.text value => some value
  | _ => none

namespace XMLElement

/-- The member `const char* Attribute(const char* name)`: the value of the first attribute
with that name, or null. -/
def Attribute (element : XMLElement) (name : String) : Option String :=
  match element.attributes.find? (fun a => a.1 == name) with
  | some a => some a.2
  | none => none

/-- The child elements in document order: what `FirstChildElement()` followed by
`NextSiblingElement()` until null walks through. -/
def childElements (element : XMLElement) : List XMLElement :=
  element.children.filterMap XMLNode.ToElement

/-- The child elements with a given name in document order: what
`FirstChildElement(name)` followed by `NextSiblingElement(name)` until null walks
through. -/
def childElementsNamed (element : XMLElement) (name : String) : List XMLElement :=
  element.childElements.filter (fun e => e.name == name)

end XMLElement

/-- The document's `FirstChildElement(name)`: the first top-level element with that
name, or null. -/
def firstChildElementNamed (doc : XMLDocument (List XMLNode)) (name : String) :
    Option XMLElement :=
  (doc.content.filterMap XMLNode.ToElement).find? (fun e => e.name == name)

namespace ParserStatus

/-- The member `status.warn(location, str)`. -/
def warnAt (status : ParserStatus) (location : FileLocation) (str : String) : ParserStatus :=
  { warnings := status.warnings ++ [(some location, str)] }

/-- The member `status.warn(str)`. -/
def warn (status : ParserStatus) (str : String) : ParserStatus :=
  { warnings := status.warnings ++ [(none, str)] }

end ParserStatus

/-- The function `getName(element)`. -/
def getName (element : XMLElement) : String :=
  element.name

/-- The function `hasAttribute(element, attributeName)`. -/
def hasAttribute (element : XMLElement) (attributeName : String) : Bool :=
  (element.Attribute attributeName).isSome

/-- The function `getAttribute(element, attributeName)`: the attribute or the empty
string. -/
def getAttribute (element : XMLElement) (attributeName : String) : String :=
  match element.Attribute attributeName with
  | some value => value
  | none => ""

/-- The function `warn(element, msg, status)`: the status after the call. -/
def warn (element : XMLElement) (msg : String) (status : ParserStatus) : ParserStatus :=
  -- fmt::format("{}: {}", msg, getName(element))
  let str := msg ++ ": " ++ getName element
  if element.lineNum > 0 then
    status.warnAt { line := static_cast_size_t (element.lineNum - 1) } str
  else
    status.warn str

/-- The function `expectAttribute(element, attributeName, status)`: the value returned and
the status after the call. -/
def expectAttribute (element : XMLElement) (attributeName : String) (status : ParserStatus) :
    Bool × ParserStatus :=
  if !hasAttribute element attributeName then
    -- fmt::format("Expected attribute '{}'", attributeName)
    (false, warn element ("Expected attribute '" ++ attributeName ++ "'") status)
  else
    (true, status)

/-- The function `getText(element)`: the value of the first child if it is a text node,
followed by the value of the last child if that is another node and a text node. -/
def getText (element : XMLElement) : String :=
  let first := element.children.head?
  let last := element.children.getLast?
  let str :=
    match first with
    | some (XMLNode.text value) => value
    | _ => ""
  match last with
  | some (XMLNode.text value) => if element.children.length > 1 then str ++ value else str
  | _ => str

/-- The function `parseString(element, attributeName)`. -/
def parseString (element : XMLElement) (attributeName : String) : String :=
  getAttribute element attributeName

/-- The value types the parser produces that are declared outside `src/`: `float`,
`Color`, `vm::vec3d` and the optimised `el::ExpressionNode` of a model expression. -/
structure EntTypes where
  Float : Type
  Color : Type
  Vec3d : Type
  Expression : Type

/-- The values of `mdl::PropertyDefinitionType` that the parser passes. -/
inductive PropertyDefinitionType where
  | TargetSourceProperty
  | TargetDestinationProperty
  deriving DecidableEq, Repr

/-- The property definitions the parser creates, one constructor for each class it
instantiates with `std::make_unique`, holding the constructor arguments in order
(`PropertyDefinitionBase` is the class `mdl::PropertyDefinition` itself); a default value
that is not passed is `none`. A `ChoicePropertyOption` is its value and
its description; a flag option is its value, short and long description and default. -/
inductive PropertyDefinition (Fl : Type) where
  | PropertyDefinitionBase (key : String) (type : PropertyDefinitionType)
      (shortDescription longDescription : String) (readOnly : Bool)
  | ChoicePropertyDefinition (key shortDescription longDescription : String)
      (options : List (String × String)) (readOnly : Bool)
  | FloatPropertyDefinition (key shortDescription longDescription : String) (readOnly : Bool)
      (defaultValue : Option Fl)
  | IntegerPropertyDefinition (key shortDescription longDescription : String)
      (readOnly : Bool) (defaultValue : Option Int)
  | BooleanPropertyDefinition (key shortDescription longDescription : String)
      (readOnly : Bool) (defaultValue : Option Bool)
  | UnknownPropertyDefinition (key shortDescription longDescription : String)
      (readOnly : Bool) (defaultValue : Option String)
  | StringPropertyDefinition (key shortDescription longDescription : String)
      (readOnly : Bool) (defaultValue : Option String)
  | FlagsPropertyDefinition (key : String) (options : List (Int × String × String × Bool))

/-- The member `key()` of a property definition. -/
def PropertyDefinition.key {Fl : Type} : PropertyDefinition Fl → String
  | PropertyDefinition.PropertyDefinitionBase key _ _ _ _ => key
  | PropertyDefinition.ChoicePropertyDefinition key _ _ _ _ => key
  | PropertyDefinition.FloatPropertyDefinition key _ _ _ _ => key
  | PropertyDefinition.IntegerPropertyDefinition key _ _ _ _ => key
  | PropertyDefinition.BooleanPropertyDefinition key _ _ _ _ => key
  | PropertyDefinition.UnknownPropertyDefinition key _ _ _ _ => key
  | PropertyDefinition.StringPropertyDefinition key _ _ _ _ => key
  | PropertyDefinition.FlagsPropertyDefinition key _ => key

/-- How parsing and optimising a model expression ends: with the expression, with a
`ParserException`, or with an `el::EvaluationError` and its `what()`. -/
inductive ExpressionOutcome (Expression : Type) where
  | expression (e : Expression)
  | parserException
  | evaluationError (what : String)

/-- The library functions `EntParser.cpp` calls that are not under `src/`: the string
conversions and `str_split`/`str_join` of `kdl`, `Color::parse`, `vm::parse<double, 3>`,
`ELParser{Lenient, str}.parse()` followed by `optimize()`, `PropertyDefinition::clone`,
`addPropertyDefinition` (the value returned and the list after the call) and the constant
`mdl::EntityPropertyKeys::Spawnflags`. -/
structure EntCollaborators (τ : EntTypes) where
  str_to_size : String → Option Nat
  str_to_int : String → Option Int
  str_to_float : String → Option τ.Float
  str_split : String → String → List String
  str_join : List String → String → String
  colorParse : String → Option τ.Color
  vecParse : String → Option τ.Vec3d
  parseAndOptimize : String → ExpressionOutcome τ.Expression
  clone : PropertyDefinition τ.Float → String → String → String → Bool →
    PropertyDefinition τ.Float
  addPropertyDefinition : List (PropertyDefinition τ.Float) → PropertyDefinition τ.Float →
    Bool × List (PropertyDefinition τ.Float)
  Spawnflags : String

/-- Modelled from the spec: `kdl::ci::str_is_equal` of `kdl/string_compare.h`, which is
not under `src/`; equality of two strings without regard to case. -/
def ci_str_is_equal (lhs rhs : String) : Bool :=
  lhs.data.map Char.toLower == rhs.data.map Char.toLower

/-- The comparison `opt != value` of a `std::optional<int>` with an `int`: true when the
optional holds no value or holds a value other than `value`. -/
def optional_ne (opt : Option Int) (value : Int) : Bool :=
  match opt with
  | some x => x != value
  | none => true

/-- The comparison `opt == value` of a `std::optional<int>` with an `int`: true when the
optional holds a value and that value is `value`. -/
def optional_eq (opt : Option Int) (value : Int) : Bool :=
  match opt with
  | some x => x == value
  | none => false

section

variable {τ : EntTypes}

/-- The function `parseSize(element, attributeName)`. -/
def parseSize (c : EntCollaborators τ) (element : XMLElement) (attributeName : String) :
    Option Nat :=
  c.str_to_size (getAttribute element attributeName)

/-- The function `parseInteger(element, attributeName)`. -/
def parseInteger (c : EntCollaborators τ) (element : XMLElement) (attributeName : String) :
    Option Int :=
  c.str_to_int (getAttribute element attributeName)

/-- The function `parseBoolean(element, attributeName)`. -/
def parseBoolean (c : EntCollaborators τ) (element : XMLElement) (attributeName : String) :
    Option Bool :=
  let strValue := getAttribute element attributeName
  if ci_str_is_equal strValue "true" then
    some true
  else if ci_str_is_equal strValue "false" then
    some false
  else
    -- const auto intValue = kdl::str_to_int(strValue);
    let intValue := c.str_to_int strValue
    -- if (intValue != 0)
    if optional_ne intValue 0 then
      some true
    -- if (intValue == 0)
    else if optional_eq intValue 0 then
      some false
    else
      none

/-- The function `parseFloat(element, attributeName)`. -/
def parseFloat (c : EntCollaborators τ) (element : XMLElement) (attributeName : String) :
    Option τ.Float :=
  c.str_to_float (getAttribute element attributeName)

/-- The function `parseColor(element, attributeName)`. -/
def parseColor (c : EntCollaborators τ) (element : XMLElement) (attributeName : String) :
    Option τ.Color :=
  c.colorParse (parseString element attributeName)

/-- The function `parseBounds(element, attributeName, status)`: the box as its minimum
and maximum, and the status after the call. -/
def parseBounds (c : EntCollaborators τ) (element : XMLElement) (attributeName : String)
    (status : ParserStatus) : Option (τ.Vec3d × τ.Vec3d) × ParserStatus :=
  let parts := c.str_split (parseString element attributeName) " "
  let failed : Option (τ.Vec3d × τ.Vec3d) × ParserStatus :=
    (none, warn element "Invalid bounding box" status)
  if parts.length = 6 then
    let min := c.vecParse (c.str_join (parts.take 3) " ")
    let max := c.vecParse (c.str_join (parts.drop 3) " ")
    match min, max with
    | some lo, some hi => (some (lo, hi), status)
    | _, _ => failed
  else
    failed

/-- The loop of `parseListDeclaration` over the `item` elements: the options and the
status after it. -/
def parseListItems (items : List XMLElement) (options : List (String × String))
    (status : ParserStatus) : List (String × String) × ParserStatus :=
  match items with
  | [] => (options, status)
  | itemElement :: rest =>
    let (hasName, status1) := expectAttribute itemElement "name" status
    if hasName then
      let (hasValue, status2) := expectAttribute itemElement "value" status1
      if hasValue then
        let itemName := parseString itemElement "name"
        let itemValue := parseString itemElement "value"
        parseListItems rest (options ++ [(itemValue, itemName)]) status2
      else
        parseListItems rest options status2
    else
      parseListItems rest options status1

/-- The function `parseListDeclaration(element, status)`: the definition or null, and the
status after the call. -/
def parseListDeclaration (element : XMLElement) (status : ParserStatus) :
    Option (PropertyDefinition τ.Float) × ParserStatus :=
  let (hasName, status1) := expectAttribute element "name" status
  if hasName then
    let name := parseString element "name"
    let (options, status2) := parseListItems (element.childElementsNamed "item") [] status1
    (some (PropertyDefinition.ChoicePropertyDefinition name "" "" options false), status2)
  else
    (none, status1)

/-- The function `parsePropertyDeclaration(element, status)`. -/
def parsePropertyDeclaration (element : XMLElement) (status : ParserStatus) :
    Option (PropertyDefinition τ.Float) × ParserStatus :=
  if getName element = "list" then parseListDeclaration element status else (none, status)

/-- The type `PropertyDefinitionFactory`: a function of the name and the short and long
description; the lambdas passed capture the status by reference, so a factory also maps
the status before to the status after. -/
abbrev PropertyDefinitionFactory (τ : EntTypes) : Type :=
  String → String → String → ParserStatus → PropertyDefinition τ.Float × ParserStatus

/-- The overload `parsePropertyDefinition(element, factory, status)`. -/
def parsePropertyDefinitionWith (element : XMLElement) (factory : PropertyDefinitionFactory τ)
    (status : ParserStatus) : Option (PropertyDefinition τ.Float) × ParserStatus :=
  let (hasKey, status1) := expectAttribute element "key" status
  if hasKey then
    let (hasName, status2) := expectAttribute element "name" status1
    if hasName then
      let name := parseString element "key"
      let shortDesc := parseString element "name"
      let longDesc := getText element
      let (definition, status3) := factory name shortDesc longDesc status2
      (some definition, status3)
    else
      (none, status2)
  else
    (none, status1)

/-- The function `parseDeclaredPropertyDefinition(element, propertyDeclaration, status)`. -/
def parseDeclaredPropertyDefinition (c : EntCollaborators τ) (element : XMLElement)
    (propertyDeclaration : PropertyDefinition τ.Float) (status : ParserStatus) :
    Option (PropertyDefinition τ.Float) × ParserStatus :=
  parsePropertyDefinitionWith element
    (fun name shortDesc longDesc st =>
      (c.clone propertyDeclaration name shortDesc longDesc false, st))
    status

/-- The function `parseTargetNamePropertyDefinition(element, status)`. -/
def parseTargetNamePropertyDefinition (element : XMLElement) (status : ParserStatus) :
    Option (PropertyDefinition τ.Float) × ParserStatus :=
  parsePropertyDefinitionWith element
    (fun name shortDesc longDesc st =>
      (PropertyDefinition.PropertyDefinitionBase name
        PropertyDefinitionType.TargetSourceProperty shortDesc longDesc false, st))
    status

/-- The function `parseTargetPropertyDefinition(element, status)`. -/
def parseTargetPropertyDefinition (element : XMLElement) (status : ParserStatus) :
    Option (PropertyDefinition τ.Float) × ParserStatus :=
  parsePropertyDefinitionWith element
    (fun name shortDesc longDesc st =>
      (PropertyDefinition.PropertyDefinitionBase name
        PropertyDefinitionType.TargetDestinationProperty shortDesc longDesc false, st))
    status

/-- The function `parseRealPropertyDefinition(element, status)`. -/
def parseRealPropertyDefinition (c : EntCollaborators τ) (element : XMLElement)
    (status : ParserStatus) : Option (PropertyDefinition τ.Float) × ParserStatus :=
  parsePropertyDefinitionWith element
    (fun name shortDesc longDesc st =>
      if hasAttribute element "value" then
        match parseFloat c element "value" with
        | some floatDefaultValue =>
          (PropertyDefinition.FloatPropertyDefinition name shortDesc longDesc false
            (some floatDefaultValue), st)
        | none =>
          let strDefaultValue := parseString element "value"
          (PropertyDefinition.UnknownPropertyDefinition name shortDesc longDesc false
            (some strDefaultValue),
           warn element
            ("Invalid default value '" ++ strDefaultValue ++ "' for float property definition")
            st)
      else
        (PropertyDefinition.FloatPropertyDefinition name shortDesc longDesc false none, st))
    status

/-- The function `parseIntegerPropertyDefinition(element, status)`. -/
def parseIntegerPropertyDefinition (c : EntCollaborators τ) (element : XMLElement)
    (status : ParserStatus) : Option (PropertyDefinition τ.Float) × ParserStatus :=
  parsePropertyDefinitionWith element
    (fun name shortDesc longDesc st =>
      if hasAttribute element "value" then
        match parseInteger c element "value" with
        | some intDefaultValue =>
          (PropertyDefinition.IntegerPropertyDefinition name shortDesc longDesc false
            (some intDefaultValue), st)
        | none =>
          let strDefaultValue := parseString element "value"
          (PropertyDefinition.UnknownPropertyDefinition name shortDesc longDesc false
            (some strDefaultValue),
           warn element
            ("Invalid default value '" ++ strDefaultValue
              ++ "' for integer property definition")
            st)
      else
        (PropertyDefinition.IntegerPropertyDefinition name shortDesc longDesc false none, st))
    status

/-- The function `parseBooleanPropertyDefinition(element, status)`. -/
def parseBooleanPropertyDefinition (c : EntCollaborators τ) (element : XMLElement)
    (status : ParserStatus) : Option (PropertyDefinition τ.Float) × ParserStatus :=
  parsePropertyDefinitionWith element
    (fun name shortDesc longDesc st =>
      if hasAttribute element "value" then
        match parseBoolean c element "value" with
        | some boolDefaultValue =>
          (PropertyDefinition.BooleanPropertyDefinition name shortDesc longDesc false
            (some boolDefaultValue), st)
        | none =>
          let strDefaultValue := parseString element "value"
          (PropertyDefinition.UnknownPropertyDefinition name shortDesc longDesc false
            (some strDefaultValue),
           warn element
            ("Invalid default value '" ++ strDefaultValue
              ++ "' for boolean property definition")
            st)
      else
        (PropertyDefinition.BooleanPropertyDefinition name shortDesc longDesc false none, st))
    status

/-- The function `parseStringPropertyDefinition(element, status)`. -/
def parseStringPropertyDefinition (element : XMLElement) (status : ParserStatus) :
    Option (PropertyDefinition τ.Float) × ParserStatus :=
  parsePropertyDefinitionWith element
    (fun name shortDesc longDesc st =>
      let defaultValue :=
        if hasAttribute element "value" then some (parseString element "value") else none
      (PropertyDefinition.StringPropertyDefinition name shortDesc longDesc false defaultValue,
       st))
    status

/-- The function `parseUnknownPropertyDefinition(element, status)`. -/
def parseUnknownPropertyDefinition (element : XMLElement) (status : ParserStatus) :
    Option (PropertyDefinition τ.Float) × ParserStatus :=
  parsePropertyDefinitionWith element
    (fun name shortDesc longDesc st =>
      let defaultValue :=
        if hasAttribute element "value" then some (parseString element "value") else none
      (PropertyDefinition.UnknownPropertyDefinition name shortDesc longDesc false defaultValue,
       st))
    status

/-- The overload `parsePropertyDefinition(element, propertyDeclarations, status)`. -/
def parsePropertyDefinition (c : EntCollaborators τ) (element : XMLElement)
    (propertyDeclarations : List (PropertyDefinition τ.Float)) (status : ParserStatus) :
    Option (PropertyDefinition τ.Float) × ParserStatus :=
  if getName element = "angle" then parseUnknownPropertyDefinition element status
  else if getName element = "angles" then parseUnknownPropertyDefinition element status
  else if getName element = "direction" then parseUnknownPropertyDefinition element status
  else if getName element = "boolean" then parseBooleanPropertyDefinition c element status
  else if getName element = "integer" then parseIntegerPropertyDefinition c element status
  else if getName element = "real" then parseRealPropertyDefinition c element status
  else if getName element = "string" then parseStringPropertyDefinition element status
  else if getName element = "target" then parseTargetPropertyDefinition element status
  else if getName element = "targetname" then parseTargetNamePropertyDefinition element status
  else if getName element = "texture" then parseUnknownPropertyDefinition element status
  else if getName element = "sound" then parseUnknownPropertyDefinition element status
  else if getName element = "model" then parseUnknownPropertyDefinition element status
  else if getName element = "color" then parseUnknownPropertyDefinition element status
  else
    match propertyDeclarations.find? (fun d => getName element == d.key) with
    | some propertyDeclaration =>
      parseDeclaredPropertyDefinition c element propertyDeclaration status
    | none => (none, status)

/-- The loop of the overload `parsePropertyDefinitions(parent, propertyDeclarations,
status)` over the child elements. -/
def parsePropertyDefinitionsLoop (c : EntCollaborators τ) (elements : List XMLElement)
    (propertyDeclarations : List (PropertyDefinition τ.Float))
    (result : List (PropertyDefinition τ.Float)) (status : ParserStatus) :
    List (PropertyDefinition τ.Float) × ParserStatus :=
  match elements with
  | [] => (result, status)
  | element :: rest =>
    match parsePropertyDefinition c element propertyDeclarations status with
    | (some propertyDefinition, status1) =>
      parsePropertyDefinitionsLoop c rest propertyDeclarations (result ++ [propertyDefinition])
        status1
    | (none, status1) =>
      parsePropertyDefinitionsLoop c rest propertyDeclarations result status1

/-- The overload `parsePropertyDefinitions(parent, propertyDeclarations, status)` that
returns the list of definitions. -/
def parsePropertyDefinitions (c : EntCollaborators τ) (parent : XMLElement)
    (propertyDeclarations : List (PropertyDefinition τ.Float)) (status : ParserStatus) :
    List (PropertyDefinition τ.Float) × ParserStatus :=
  parsePropertyDefinitionsLoop c parent.childElements propertyDeclarations [] status

end

/-- The enum `EntityDefinitionClassType`. -/
inductive EntityDefinitionClassType where
  | PointClass
  | BrushClass
  | BaseClass
  deriving DecidableEq, Repr

/-- A `mdl::ModelDefinition` as the parser builds it: default constructed, from the
optimised expression, or from the literal map expression `{path: model}` at a location. -/
inductive ModelDefinition (Expression : Type) where
  | default
  | ofExpression (expression : Expression)
  | ofLiteralPath (model : String) (location : FileLocation)

/-- The members of `struct EntityDefinitionClassInfo` that the parser assigns; `size` and
`modelDefinition` stay empty when they are not assigned. -/
structure EntityDefinitionClassInfo (τ : EntTypes) where
  type : EntityDefinitionClassType
  location : FileLocation
  name : String
  description : String
  color : Option τ.Color
  size : Option (τ.Vec3d × τ.Vec3d)
  modelDefinition : Option (ModelDefinition τ.Expression)
  propertyDefinitions : List (PropertyDefinition τ.Float)

section

variable {τ : EntTypes}

/-- The loop of `parseSpawnflags` over the `flag` elements: the options of the flags
definition and the status after it. -/
def parseSpawnflagOptions (c : EntCollaborators τ) (flags : List XMLElement)
    (options : List (Int × String × String × Bool)) (status : ParserStatus) :
    List (Int × String × String × Bool) × ParserStatus :=
  match flags with
  | [] => (options, status)
  | flagElement :: rest =>
    match parseSize c flagElement "bit" with
    | none =>
      let strValue := parseString flagElement "bit"
      parseSpawnflagOptions c rest options
        (warn flagElement ("Invalid value '" ++ strValue ++ "' for bit property definition")
          status)
    | some bit =>
      -- const auto value = 1 << *bit;  (defined in C++ for bit < 31 only)
      let value : Int := 2 ^ bit
      let shortDesc := parseString flagElement "key"
      let longDesc := parseString flagElement "name"
      parseSpawnflagOptions c rest (options ++ [(value, shortDesc, longDesc, false)]) status

/-- The function `parseSpawnflags(element, status)`. -/
def parseSpawnflags (c : EntCollaborators τ) (element : XMLElement) (status : ParserStatus) :
    Option (PropertyDefinition τ.Float) × ParserStatus :=
  match element.childElementsNamed "flag" with
  | [] => (none, status)
  | flagElement :: rest =>
    let (options, status1) := parseSpawnflagOptions c (flagElement :: rest) [] status
    (some (PropertyDefinition.FlagsPropertyDefinition c.Spawnflags options), status1)

/-- The loop of the overload of `parsePropertyDefinitions` that fills a class info: each
definition is added, with a warning when it is a duplicate. -/
def addPropertyDefinitionsLoop (c : EntCollaborators τ) (element : XMLElement)
    (definitions : List (PropertyDefinition τ.Float))
    (propertyDefinitions : List (PropertyDefinition τ.Float)) (status : ParserStatus) :
    List (PropertyDefinition τ.Float) × ParserStatus :=
  match definitions with
  | [] => (propertyDefinitions, status)
  | propertyDefinition :: rest =>
    let (added, propertyDefinitions1) :=
      c.addPropertyDefinition propertyDefinitions propertyDefinition
    if !added then
      let line := static_cast_size_t element.lineNum
      addPropertyDefinitionsLoop c element rest propertyDefinitions1
        (status.warnAt { line := line } "Skipping duplicate entity property definition")
    else
      addPropertyDefinitionsLoop c element rest propertyDefinitions1 status

/-- The overload `parsePropertyDefinitions(element, propertyDeclarations, classInfo,
status)`: the `propertyDefinitions` of the class info and the status after the call. -/
def parsePropertyDefinitionsInto (c : EntCollaborators τ) (element : XMLElement)
    (propertyDeclarations : List (PropertyDefinition τ.Float))
    (propertyDefinitions : List (PropertyDefinition τ.Float)) (status : ParserStatus) :
    List (PropertyDefinition τ.Float) × ParserStatus :=
  let (spawnflags, status1) := parseSpawnflags c element status
  let propertyDefinitions1 :=
    match spawnflags with
    | some definition => (c.addPropertyDefinition propertyDefinitions definition).2
    | none => propertyDefinitions
  let (definitions, status2) := parsePropertyDefinitions c element propertyDeclarations status1
  addPropertyDefinitionsLoop c element definitions propertyDefinitions1 status2

/-- The function `parseModel(element)`: the model definition, or the `ParserException`
it raises when the expression ends in an `el::EvaluationError`. -/
def parseModel (c : EntCollaborators τ) (element : XMLElement) :
    Except ParserException (ModelDefinition τ.Expression) :=
  if !hasAttribute element "model" then
    Except.ok ModelDefinition.default
  else
    let model := parseString element "model"
    match c.parseAndOptimize model with
    | ExpressionOutcome.expression expression =>
      Except.ok (ModelDefinition.ofExpression expression)
    | ExpressionOutcome.parserException =>
      let lineNum := static_cast_size_t element.lineNum
      Except.ok (ModelDefinition.ofLiteralPath model { line := lineNum })
    | ExpressionOutcome.evaluationError what =>
      let line := static_cast_size_t element.lineNum
      Except.error { location := { line := line }, what := what }

/-- The function `parsePointClassInfo(element, propertyDeclarations, status)`: the class
info or the exception raised, and the status after the call. -/
def parsePointClassInfo (c : EntCollaborators τ) (element : XMLElement)
    (propertyDeclarations : List (PropertyDefinition τ.Float)) (status : ParserStatus) :
    Except ParserException (EntityDefinitionClassInfo τ) × ParserStatus :=
  let type := EntityDefinitionClassType.PointClass
  let location : FileLocation := { line := static_cast_size_t element.lineNum }
  let name := parseString element "name"
  let description := getText element
  let color := parseColor c element "color"
  let (size, status1) := parseBounds c element "box" status
  match parseModel c element with
  | Except.error e => (Except.error e, status1)
  | Except.ok modelDefinition =>
    let (propertyDefinitions, status2) :=
      parsePropertyDefinitionsInto c element propertyDeclarations [] status1
    (Except.ok
      { type := type, location := location, name := name, description := description,
        color := color, size := size, modelDefinition := some modelDefinition,
        propertyDefinitions := propertyDefinitions },
     status2)

/-- The function `parseBrushClassInfo(element, propertyDeclarations, status)`. -/
def parseBrushClassInfo (c : EntCollaborators τ) (element : XMLElement)
    (propertyDeclarations : List (PropertyDefinition τ.Float)) (status : ParserStatus) :
    EntityDefinitionClassInfo τ × ParserStatus :=
  let type := EntityDefinitionClassType.BrushClass
  let location : FileLocation := { line := static_cast_size_t element.lineNum }
  let name := parseString element "name"
  let description := getText element
  let color := parseColor c element "color"
  let (propertyDefinitions, status1) :=
    parsePropertyDefinitionsInto c element propertyDeclarations [] status
  ({ type := type, location := location, name := name, description := description,
     color := color, size := none, modelDefinition := none,
     propertyDefinitions := propertyDefinitions },
   status1)

/-- The function `parseClassInfo(element, propertyDeclarations, status)`. -/
def parseClassInfo (c : EntCollaborators τ) (element : XMLElement)
    (propertyDeclarations : List (PropertyDefinition τ.Float)) (status : ParserStatus) :
    Except ParserException (Option (EntityDefinitionClassInfo τ)) × ParserStatus :=
  if getName element = "point" then
    match parsePointClassInfo c element propertyDeclarations status with
    | (Except.ok classInfo, status1) => (Except.ok (some classInfo), status1)
    | (Except.error e, status1) => (Except.error e, status1)
  else if getName element = "group" then
    let (classInfo, status1) := parseBrushClassInfo c element propertyDeclarations status
    (Except.ok (some classInfo), status1)
  else
    (Except.ok none, warn element "Unexpected XML element" status)

/-- The `while` loop of `parseClassInfosFromDocument` over the child elements of the
`classes` element, from the result, the property declarations and the status so far. -/
def parseClassInfosLoop (c : EntCollaborators τ) (elements : List XMLElement)
    (result : List (EntityDefinitionClassInfo τ))
    (propertyDeclarations : List (PropertyDefinition τ.Float)) (status : ParserStatus) :
    Except ParserException (List (EntityDefinitionClassInfo τ)) × ParserStatus :=
  match elements with
  | [] => (Except.ok result, status)
  | currentElement :: rest =>
    if getName currentElement = "point" ∨ getName currentElement = "group" then
      match parseClassInfo c currentElement propertyDeclarations status with
      | (Except.error e, status1) => (Except.error e, status1)
      | (Except.ok (some classInfo), status1) =>
        parseClassInfosLoop c rest (result ++ [classInfo]) propertyDeclarations status1
      | (Except.ok none, status1) =>
        parseClassInfosLoop c rest result propertyDeclarations status1
    else
      match parsePropertyDeclaration (τ := τ) currentElement status with
      | (some propertyDeclaration, status1) =>
        let (added, propertyDeclarations1) :=
          c.addPropertyDefinition propertyDeclarations propertyDeclaration
        if !added then
          let line := static_cast_size_t currentElement.lineNum
          parseClassInfosLoop c rest result propertyDeclarations1
            (status1.warnAt { line := line } "Skipping duplicate entity property declaration")
        else
          parseClassInfosLoop c rest result propertyDeclarations1 status1
      | (none, status1) => parseClassInfosLoop c rest result propertyDeclarations status1

/-- The function `parseClassInfosFromDocument(document, status)`: the list returned or the
exception raised, and the status after the call. -/
def parseClassInfosFromDocument (c : EntCollaborators τ) (document : XMLDocument (List XMLNode))
    (status : ParserStatus) :
    Except ParserException (List (EntityDefinitionClassInfo τ)) × ParserStatus :=
  match firstChildElementNamed document "classes" with
  | some classesNode => parseClassInfosLoop c classesNode.childElements [] [] status
  | none => (Except.ok [], status)

end

/-- The type and name of the class info that the claim about `parseClassInfosFromDocument`
expects for a child element of `classes`: `PointClass` for `point`, `BrushClass` for
`group`, with the `name` attribute, and none for any other element. -/
def expectedClassHeader (element : XMLElement) : Option (EntityDefinitionClassType × String) :=
  if element.name = "point" then
    some (EntityDefinitionClassType.PointClass, getAttribute element "name")
  else if element.name = "group" then
    some (EntityDefinitionClassType.BrushClass, getAttribute element "name")
  else
    none

/-- The types and names of the class infos that the claim about
`parseClassInfosFromDocument` expects for a document, in document order; none for a
document without an element `classes`. -/
def expectedClassHeaders (document : XMLDocument (List XMLNode)) :
    List (EntityDefinitionClassType × String) :=
  match firstChildElementNamed document "classes" with
  | some classesNode => classesNode.childElements.filterMap expectedClassHeader
  | none => []

/-- The type and name of a class info. -/
def EntityDefinitionClassInfo.header {τ : EntTypes} (classInfo : EntityDefinitionClassInfo τ) :
    EntityDefinitionClassType × String :=
  (classInfo.type, classInfo.name)

/-- Sample value types: floats, colours, vectors and expressions kept as their text. -/
@[reducible]
def sampleEntTypes : EntTypes where
  Float := String
  Color := String
  Vec3d := String
  Expression := String

/-- The value of a string of decimal digits, if it is one. -/
def sampleDigits (digits : List Char) : Option Nat :=
  if digits ≠ [] ∧ digits.all Char.isDigit then
    some (digits.foldl (fun n d => 10 * n + (d.toNat - '0'.toNat)) 0)
  else
    none

/-- Sample collaborators: integers are decimal digits with an optional minus sign, an
expression that starts with `[` ends in an evaluation error, one that starts with `{`
parses, any other text is a parse error; a definition is added unless its key is there
already. -/
def sampleEntCollaborators : EntCollaborators sampleEntTypes where
  str_to_size := fun str => sampleDigits str.data
  str_to_int := fun str =>
    match str.data with
    | '-' :: digits => (sampleDigits digits).map (fun n => - (n : Int))
    | digits => (sampleDigits digits).map (fun n => (n : Int))
  str_to_float := fun str => if (sampleDigits str.data).isSome then some str else none
  str_split := fun str _ => [str]
  str_join := fun parts _ => String.join parts
  colorParse := fun str => if str.data = [] then none else some str
  vecParse := fun str => if str.data = [] then none else some str
  parseAndOptimize := fun str =>
    match str.data with
    | '[' :: _ => ExpressionOutcome.evaluationError "Index out of bounds"
    | '{' :: _ => ExpressionOutcome.expression str
    | _ => ExpressionOutcome.parserException
  clone := fun declaration _ _ _ _ => declaration
  addPropertyDefinition := fun definitions definition =>
    if definitions.any (fun d => d.key == definition.key) then (false, definitions)
    else (true, definitions ++ [definition])
  Spawnflags := "spawnflags"

/-- The element `<boolean key="solid" name="Solid" value="maybe"/>` on line 4. -/
def invalidBooleanElement : XMLElement :=
  { name := "boolean", lineNum := 4,
    attributes := [("key", "solid"), ("name", "Solid"), ("value", "maybe")], children := [] }

/-- The document
`<classes><point name="light" model="[1][2]"/><group name="door"/></classes>`. -/
def failingModelDocument : XMLDocument (List XMLNode) :=
  { errorID := XMLError.XML_SUCCESS, errorLineNum := 0, errorStr := "",
    content :=
      [XMLNode.element "classes" 1 []
        [XMLNode.element "point" 2 [("name", "light"), ("model", "[1][2]")] [],
         XMLNode.element "group" 3 [("name", "door")] []]] }

/-- The document
`<classes><point name="light" model="light.md3"/><list name="kinds"/><group name="door"/>
</classes>`. -/
def sampleClassesDocument : XMLDocument (List XMLNode) :=
  { errorID := XMLError.XML_SUCCESS, errorLineNum := 0, errorStr := "",
    content :=
      [XMLNode.element "classes" 1 []
        [XMLNode.element "point" 2 [("name", "light"), ("model", "light.md3")] [],
         XMLNode.element "list" 3 [("name", "kinds")] [],
         XMLNode.element "group" 4 [("name", "door")] []]] }

end tb

/-! ## Theorems -/

namespace TrenchBroom
namespace Model

theorem VectorUtils.contains_iff (vec : BrushFaceList) (x : BrushFace) :
    VectorUtils.contains vec x = true ↔ x ∈ vec := by
  induction vec with
  | nil => simp [VectorUtils.contains]
  | cons y ys ih =>
    unfold VectorUtils.contains
    by_cases h : y = x
    · simp [h]
    · have h2 : ¬ x = y := fun e => h e.symm
      simp [h, h2, ih]

theorem VectorUtils.difference_eq_filter (vec minus : BrushFaceList) :
    VectorUtils.difference vec minus = vec.filter (fun x => decide (x ∉ minus)) := by
  induction vec with
  | nil => simp [VectorUtils.difference]
  | cons x xs ih =>
    unfold VectorUtils.difference
    by_cases h : x ∈ minus
    · have hc : VectorUtils.contains minus x = true := (VectorUtils.contains_iff minus x).2 h
      simp [hc, h, ih]
    · have hc : ¬ VectorUtils.contains minus x = true :=
        fun e => h ((VectorUtils.contains_iff minus x).1 e)
      simp [hc, h, ih]

theorem VectorUtils.mem_difference (vec minus : BrushFaceList) (x : BrushFace) :
    x ∈ VectorUtils.difference vec minus ↔ x ∈ vec ∧ x ∉ minus := by
  rw [VectorUtils.difference_eq_filter]
  simp [List.mem_filter]

theorem Result.mem_append_addedFaces {T : Type} (a b : Result T) (x : BrushFace) :
    x ∈ (a.append b).addedFaces ↔ (x ∈ a.addedFaces ∧ x ∉ b.droppedFaces) ∨ x ∈ b.addedFaces := by
  simp [Result.append, VectorUtils.concatenate, VectorUtils.mem_difference]

theorem Result.mem_append_droppedFaces {T : Type} (a b : Result T) (x : BrushFace) :
    x ∈ (a.append b).droppedFaces ↔
      (x ∈ a.droppedFaces ∧ x ∉ b.addedFaces) ∨ x ∈ b.droppedFaces := by
  simp [Result.append, VectorUtils.concatenate, VectorUtils.mem_difference]

/-- C1: after `a.append(b)`, `addedFaces` is the old `a.addedFaces` without the elements
that occur in `b.droppedFaces` (order kept) followed by `b.addedFaces`, and `droppedFaces`
is the old `a.droppedFaces` without the elements that occur in `b.addedFaces` (order kept)
followed by `b.droppedFaces`. -/
theorem Result.append_merge_rule {T : Type} (a b : Result T) :
    (a.append b).addedFaces
        = a.addedFaces.filter (fun f => decide (f ∉ b.droppedFaces)) ++ b.addedFaces
    ∧ (a.append b).droppedFaces
        = a.droppedFaces.filter (fun f => decide (f ∉ b.addedFaces)) ++ b.droppedFaces := by
  constructor
  · simp [Result.append, VectorUtils.concatenate, VectorUtils.difference_eq_filter]
  · simp [Result.append, VectorUtils.concatenate, VectorUtils.difference_eq_filter]

theorem mem_faceSet (faces : BrushFaceList) (f : BrushFace) : f ∈ faceSet faces ↔ f ∈ faces :=
  Iff.rfl

theorem mem_applyDelta {T : Type} (S : Set BrushFace) (r : Result T) (f : BrushFace) :
    f ∈ applyDelta S r ↔ (f ∈ S ∨ f ∈ r.addedFaces) ∧ f ∉ r.droppedFaces := by
  simp [applyDelta, mem_faceSet]

/-- C2: delta correctness is preserved by composition. If `S1` is `S0` plus `a.addedFaces`
minus `a.droppedFaces` and `S2` is `S1` plus `b.addedFaces` minus `b.droppedFaces`, then
`S2` is `S0` plus the added faces of `a.append(b)` minus its dropped faces. -/
theorem Result.append_delta_composition {T : Type} (S0 S1 S2 : Set BrushFace) (a b : Result T)
    (h1 : S1 = (S0 ∪ faceSet a.addedFaces) \ faceSet a.droppedFaces)
    (h2 : S2 = (S1 ∪ faceSet b.addedFaces) \ faceSet b.droppedFaces) :
    S2 = (S0 ∪ faceSet (a.append b).addedFaces) \ faceSet (a.append b).droppedFaces := by
  subst h1
  subst h2
  ext f
  simp only [Set.mem_diff, Set.mem_union, mem_faceSet, Result.mem_append_addedFaces,
    Result.mem_append_droppedFaces]
  tauto

theorem Result.append_delta_composition_witness :
    ((({1, 2} : Set BrushFace) ∪ faceSet sampleStepA.addedFaces) \ faceSet sampleStepA.droppedFaces
        ∪ faceSet sampleStepB.addedFaces) \ faceSet sampleStepB.droppedFaces
      = (({1, 2} : Set BrushFace) ∪ faceSet (sampleStepA.append sampleStepB).addedFaces)
          \ faceSet (sampleStepA.append sampleStepB).droppedFaces :=
  Result.append_delta_composition {1, 2} _ _ sampleStepA sampleStepB rfl rfl

/-- C3 fails as stated, at two inputs. From the empty face set, step `a` adds face 1 and
step `b` drops it again: both are exact deltas, yet after `a.append(b)` face 1 is listed
in `droppedFaces` although it is not in the face set before the batch. From the face set
`{1}`, step `a` drops face 1 and step `b` adds it again: both are exact deltas, yet after
`a.append(b)` face 1 is listed in `addedFaces` although it is in the face set before the
batch. -/
theorem Result.append_net_changes_counterexample :
    ((∀ f ∈ addsFaceOne.addedFaces, f ∉ (∅ : Set BrushFace))
      ∧ (∀ f ∈ addsFaceOne.droppedFaces, f ∈ (∅ : Set BrushFace))
      ∧ (∀ f ∈ dropsFaceOne.addedFaces, f ∉ applyDelta (∅ : Set BrushFace) addsFaceOne)
      ∧ (∀ f ∈ dropsFaceOne.droppedFaces, f ∈ applyDelta (∅ : Set BrushFace) addsFaceOne)
      ∧ (addsFaceOne.append dropsFaceOne).droppedFaces = [1]
      ∧ ¬ (∀ f ∈ (addsFaceOne.append dropsFaceOne).droppedFaces, f ∈ (∅ : Set BrushFace)))
    ∧ ((∀ f ∈ dropsFaceOne.addedFaces, f ∉ ({1} : Set BrushFace))
      ∧ (∀ f ∈ dropsFaceOne.droppedFaces, f ∈ ({1} : Set BrushFace))
      ∧ (∀ f ∈ addsFaceOne.addedFaces, f ∉ applyDelta ({1} : Set BrushFace) dropsFaceOne)
      ∧ (∀ f ∈ addsFaceOne.droppedFaces, f ∈ applyDelta ({1} : Set BrushFace) dropsFaceOne)
      ∧ (dropsFaceOne.append addsFaceOne).addedFaces = [1]
      ∧ ¬ (∀ f ∈ (dropsFaceOne.append addsFaceOne).addedFaces, f ∉ ({1} : Set BrushFace))) := by
  refine ⟨⟨?_, ?_, ?_, ?_, ?_, ?_⟩, ⟨?_, ?_, ?_, ?_, ?_, ?_⟩⟩
  · simp
  · simp [addsFaceOne]
  · simp [dropsFaceOne]
  · simp [dropsFaceOne, addsFaceOne, mem_applyDelta]
  · rfl
  · intro h
    exact h 1 (by decide)
  · simp [dropsFaceOne]
  · simp [dropsFaceOne]
  · simp [dropsFaceOne, addsFaceOne, mem_applyDelta]
  · simp [addsFaceOne]
  · rfl
  · intro h
    exact h 1 (by decide) rfl

/-- C3 as amended: when `a` is an exact delta from `S0` and `b` an exact delta from the face
set `S1` reached by `a`, then after `a.append(b)` every face in `droppedFaces` belongs to
`S0` or was added by `a` and dropped by `b`; no face in `addedFaces` belongs to `S0` unless
it was dropped by `a` and added again by `b`; a face added by `a` and dropped by `b` is
absent from `addedFaces` and present in `droppedFaces`; a face dropped by `a` and added
again by `b` is absent from `droppedFaces` and present in `addedFaces`. -/
theorem Result.append_net_changes_amended {T : Type} (S0 : Set BrushFace) (a b : Result T)
    (haA : ∀ f ∈ a.addedFaces, f ∉ S0)
    (haD : ∀ f ∈ a.droppedFaces, f ∈ S0)
    (hbA : ∀ f ∈ b.addedFaces, f ∉ applyDelta S0 a)
    (hbD : ∀ f ∈ b.droppedFaces, f ∈ applyDelta S0 a) :
    (∀ f ∈ (a.append b).droppedFaces, f ∈ S0 ∨ (f ∈ a.addedFaces ∧ f ∈ b.droppedFaces))
    ∧ (∀ f ∈ (a.append b).addedFaces, f ∉ S0 ∨ (f ∈ a.droppedFaces ∧ f ∈ b.addedFaces))
    ∧ (∀ f, f ∈ a.addedFaces → f ∈ b.droppedFaces →
        f ∉ (a.append b).addedFaces ∧ f ∈ (a.append b).droppedFaces)
    ∧ (∀ f, f ∈ a.droppedFaces → f ∈ b.addedFaces →
        f ∉ (a.append b).droppedFaces ∧ f ∈ (a.append b).addedFaces) := by
  simp only [mem_applyDelta] at hbA hbD
  refine ⟨?_, ?_, ?_, ?_⟩
  · intro f hf
    rw [Result.mem_append_droppedFaces] at hf
    rcases hf with ⟨h, _⟩ | h
    · exact Or.inl (haD f h)
    · rcases (hbD f h).1 with h0 | h1
      · exact Or.inl h0
      · exact Or.inr ⟨h1, h⟩
  · intro f hf
    rw [Result.mem_append_addedFaces] at hf
    rcases hf with ⟨h, _⟩ | h
    · exact Or.inl (haA f h)
    · by_cases h0 : f ∈ S0
      · right
        refine ⟨?_, h⟩
        by_contra hnd
        exact hbA f h ⟨Or.inl h0, hnd⟩
      · exact Or.inl h0
  · intro f hfa hfb
    rw [Result.mem_append_addedFaces, Result.mem_append_droppedFaces]
    refine ⟨?_, Or.inr hfb⟩
    rintro (⟨_, h⟩ | h)
    · exact h hfb
    · exact hbA f h (hbD f hfb)
  · intro f hfa hfb
    rw [Result.mem_append_addedFaces, Result.mem_append_droppedFaces]
    refine ⟨?_, Or.inr hfb⟩
    rintro (⟨_, h⟩ | h)
    · exact h hfb
    · exact hbA f hfb (hbD f h)

theorem Result.append_net_changes_amended_witness :
    (∀ f ∈ (addsFaceOne.append dropsFaceOne).droppedFaces,
        f ∈ (∅ : Set BrushFace) ∨ (f ∈ addsFaceOne.addedFaces ∧ f ∈ dropsFaceOne.droppedFaces))
    ∧ (∀ f ∈ (addsFaceOne.append dropsFaceOne).addedFaces,
        f ∉ (∅ : Set BrushFace) ∨ (f ∈ addsFaceOne.droppedFaces ∧ f ∈ dropsFaceOne.addedFaces))
    ∧ (∀ f, f ∈ addsFaceOne.addedFaces → f ∈ dropsFaceOne.droppedFaces →
        f ∉ (addsFaceOne.append dropsFaceOne).addedFaces
          ∧ f ∈ (addsFaceOne.append dropsFaceOne).droppedFaces)
    ∧ (∀ f, f ∈ addsFaceOne.droppedFaces → f ∈ dropsFaceOne.addedFaces →
        f ∉ (addsFaceOne.append dropsFaceOne).droppedFaces
          ∧ f ∈ (addsFaceOne.append dropsFaceOne).addedFaces) :=
  Result.append_net_changes_amended ∅ addsFaceOne dropsFaceOne
    (by simp) (by simp [addsFaceOne]) (by simp [dropsFaceOne])
    (by simp [dropsFaceOne, addsFaceOne, mem_applyDelta])

/-- C4: `append` keeps `addedFaces` and `droppedFaces` disjoint. If no face is both added
and dropped in `a`, and none in `b`, then after `a.append(b)` the two lists of `a` have no
element in common. -/
theorem Result.append_preserves_disjoint {T : Type} (a b : Result T)
    (ha : ∀ f ∈ a.addedFaces, f ∉ a.droppedFaces)
    (hb : ∀ f ∈ b.addedFaces, f ∉ b.droppedFaces) :
    ∀ f ∈ (a.append b).addedFaces, f ∉ (a.append b).droppedFaces := by
  intro f hf hd
  rw [Result.mem_append_addedFaces] at hf
  rw [Result.mem_append_droppedFaces] at hd
  rcases hf with ⟨h1, h2⟩ | h1
  · rcases hd with ⟨h3, _⟩ | h3
    · exact ha f h1 h3
    · exact h2 h3
  · rcases hd with ⟨_, h4⟩ | h3
    · exact h4 h1
    · exact hb f h1 h3

theorem Result.append_preserves_disjoint_witness :
    (sampleStepA.append sampleStepB).addedFaces = [4]
    ∧ (sampleStepA.append sampleStepB).droppedFaces = [1, 3]
    ∧ 4 ∉ (sampleStepA.append sampleStepB).droppedFaces :=
  ⟨rfl, rfl,
   Result.append_preserves_disjoint sampleStepA sampleStepB
    (by simp [sampleStepA]) (by simp [sampleStepB]) 4 (by decide)⟩

end Model
end TrenchBroom

namespace TrenchBroom
namespace Model
namespace BrushGeometry

variable {V E S B : Type}

theorem isNull_iff (g : BrushGeometry V E S B) :
    isNull g = true ↔ g.m_vertices = [] ∧ g.m_edges = [] ∧ g.m_sides = [] := by
  simp [isNull, List.isEmpty_iff, and_assoc]

theorem emptied_of_isNull (g : BrushGeometry V E S B) (h : isNull g = true) : emptied g = g := by
  obtain ⟨h1, h2, h3⟩ := (isNull_iff g).1 h
  cases g
  simp_all [emptied]

theorem addFace_cases (k : FaceAdditionKernel V E S B) (g : BrushGeometry V E S B)
    (face : BrushFace) :
    ((addFace k g face).1.resultCode = AddFaceResultCode.FaceIsRedundant
        ∧ (addFace k g face).2 = g)
    ∨ ((addFace k g face).1.resultCode = AddFaceResultCode.BrushIsNull
        ∧ (addFace k g face).2 = emptied g)
    ∨ (addFace k g face).1.resultCode = AddFaceResultCode.BrushIsSplit := by
  unfold addFace
  simp only
  split
  · next h => exact Or.inr (Or.inl ⟨rfl, (emptied_of_isNull g h).symm⟩)
  · split
    · exact Or.inl ⟨rfl, rfl⟩
    · split
      · exact Or.inr (Or.inl ⟨rfl, rfl⟩)
      · split
        · exact Or.inl ⟨rfl, rfl⟩
        · exact Or.inr (Or.inr rfl)

theorem addFace_redundant_unchanged (k : FaceAdditionKernel V E S B)
    (g : BrushGeometry V E S B) (face : BrushFace)
    (h : (addFace k g face).1.resultCode = AddFaceResultCode.FaceIsRedundant) :
    (addFace k g face).2 = g := by
  rcases addFace_cases k g face with ⟨_, h2⟩ | ⟨h1, _⟩ | h1
  · exact h2
  · rw [h1] at h; cases h
  · rw [h1] at h; cases h

theorem addFace_null_emptied (k : FaceAdditionKernel V E S B)
    (g : BrushGeometry V E S B) (face : BrushFace)
    (h : (addFace k g face).1.resultCode = AddFaceResultCode.BrushIsNull) :
    (addFace k g face).2 = emptied g := by
  rcases addFace_cases k g face with ⟨h1, _⟩ | ⟨_, h2⟩ | h1
  · rw [h1] at h; cases h
  · exact h2
  · rw [h1] at h; cases h

theorem addFace_of_isNull (k : FaceAdditionKernel V E S B)
    (g : BrushGeometry V E S B) (face : BrushFace) (h : isNull g = true) :
    addFace k g face = (Result.ofCode AddFaceResultCode.BrushIsNull, g) := by
  unfold addFace
  simp [h]

theorem mergeStep_resultCode (running step : AddFaceResult) :
    (mergeStep running step).resultCode = mergeCode running.resultCode step.resultCode :=
  rfl

theorem mergeCode_eq_null (a b : AddFaceResultCode)
    (h : mergeCode a b = AddFaceResultCode.BrushIsNull) :
    a = AddFaceResultCode.BrushIsNull ∨ b = AddFaceResultCode.BrushIsNull := by
  cases a <;> cases b <;> simp_all [mergeCode]

theorem mergeCode_eq_redundant (a b : AddFaceResultCode)
    (h : mergeCode a b = AddFaceResultCode.FaceIsRedundant) :
    a = AddFaceResultCode.FaceIsRedundant ∧ b = AddFaceResultCode.FaceIsRedundant := by
  cases a <;> cases b <;> simp_all [mergeCode]

theorem addFacesFrom_null (k : FaceAdditionKernel V E S B) (faces : BrushFaceList) :
    ∀ (running : AddFaceResult) (g : BrushGeometry V E S B),
      (running.resultCode = AddFaceResultCode.BrushIsNull →
        g.m_vertices = [] ∧ g.m_edges = [] ∧ g.m_sides = []) →
      (addFacesFrom k running g faces).1.resultCode = AddFaceResultCode.BrushIsNull →
      (addFacesFrom k running g faces).2.m_vertices = []
        ∧ (addFacesFrom k running g faces).2.m_edges = []
        ∧ (addFacesFrom k running g faces).2.m_sides = [] := by
  induction faces with
  | nil =>
    intro running g hinv h
    exact hinv h
  | cons face rest ih =>
    intro running g hinv h
    simp only [addFacesFrom] at h ⊢
    refine ih _ _ ?_ h
    intro hm
    rw [mergeStep_resultCode] at hm
    rcases mergeCode_eq_null _ _ hm with hr | hs
    · have hg := hinv hr
      rw [addFace_of_isNull k g face ((isNull_iff g).2 hg)]
      exact hg
    · rw [addFace_null_emptied k g face hs]
      exact ⟨rfl, rfl, rfl⟩

theorem addFaces_singleton (k : FaceAdditionKernel V E S B) (g : BrushGeometry V E S B)
    (face : BrushFace) :
    (addFaces k g [face]).1.resultCode = (addFace k g face).1.resultCode
    ∧ (addFaces k g [face]).2 = (addFace k g face).2 := by
  refine ⟨?_, rfl⟩
  show mergeCode AddFaceResultCode.FaceIsRedundant (addFace k g face).1.resultCode = _
  cases (addFace k g face).1.resultCode <;> rfl

/-- C6: when `addFaces` returns the result code `BrushIsNull`, the geometry is left in the
empty state: `vertices()`, `edges()` and `sides()` are all empty afterwards. -/
theorem addFaces_null_leaves_empty (k : FaceAdditionKernel V E S B)
    (g : BrushGeometry V E S B) (faces : BrushFaceList)
    (h : (addFaces k g faces).1.resultCode = AddFaceResultCode.BrushIsNull) :
    (addFaces k g faces).2.vertices = []
    ∧ (addFaces k g faces).2.edges = []
    ∧ (addFaces k g faces).2.sides = [] := by
  refine addFacesFrom_null k faces _ g ?_ h
  intro h0
  cases h0

theorem addFaces_null_leaves_empty_witness :
    (addFaces lineKernel lineSegment [7, 3, 1, 9]).1.resultCode = AddFaceResultCode.BrushIsNull
    ∧ (addFaces lineKernel lineSegment [7, 3, 1, 9]).2.vertices = []
    ∧ (addFaces lineKernel lineSegment [7, 3, 1, 9]).2.edges = []
    ∧ (addFaces lineKernel lineSegment [7, 3, 1, 9]).2.sides = [] :=
  ⟨by decide, addFaces_null_leaves_empty lineKernel lineSegment [7, 3, 1, 9] (by decide)⟩

/-- C7: when `addFace` returns `FaceIsRedundant` for a half-space, the geometry is
unchanged (vertices, edges, sides and bounds after the call equal those before it) and
adding the same half-space again returns `FaceIsRedundant` again; the same holds for
`addFaces` called with that one half-space. -/
theorem addFace_redundant_idempotent (k : FaceAdditionKernel V E S B)
    (g : BrushGeometry V E S B) (face : BrushFace)
    (h : (addFace k g face).1.resultCode = AddFaceResultCode.FaceIsRedundant) :
    ((addFace k g face).2.vertices = g.vertices
      ∧ (addFace k g face).2.edges = g.edges
      ∧ (addFace k g face).2.sides = g.sides
      ∧ (addFace k g face).2.bounds = g.bounds)
    ∧ (addFace k (addFace k g face).2 face).1.resultCode = AddFaceResultCode.FaceIsRedundant
    ∧ (addFaces k g [face]).1.resultCode = AddFaceResultCode.FaceIsRedundant
    ∧ ((addFaces k g [face]).2.vertices = g.vertices
      ∧ (addFaces k g [face]).2.edges = g.edges
      ∧ (addFaces k g [face]).2.sides = g.sides
      ∧ (addFaces k g [face]).2.bounds = g.bounds)
    ∧ (addFaces k (addFaces k g [face]).2 [face]).1.resultCode
        = AddFaceResultCode.FaceIsRedundant := by
  have hg : (addFace k g face).2 = g := addFace_redundant_unchanged k g face h
  have hs := addFaces_singleton k g face
  have hg2 : (addFaces k g [face]).2 = g := hs.2.trans hg
  refine ⟨?_, ?_, ?_, ?_, ?_⟩
  · rw [hg]; exact ⟨rfl, rfl, rfl, rfl⟩
  · rw [hg]; exact h
  · rw [hs.1]; exact h
  · rw [hg2]; exact ⟨rfl, rfl, rfl, rfl⟩
  · rw [hg2, hs.1]; exact h

theorem addFace_redundant_idempotent_witness :
    (addFace lineKernel lineSegment 7).1.resultCode = AddFaceResultCode.FaceIsRedundant
    ∧ (addFace lineKernel lineSegment 7).2.vertices = lineSegment.vertices
    ∧ (addFace lineKernel (addFace lineKernel lineSegment 7).2 7).1.resultCode
        = AddFaceResultCode.FaceIsRedundant :=
  ⟨by decide,
   (addFace_redundant_idempotent lineKernel lineSegment 7 (by decide)).1.1,
   (addFace_redundant_idempotent lineKernel lineSegment 7 (by decide)).2.1⟩

end BrushGeometry
end Model
end TrenchBroom

namespace TrenchBroom

namespace Run

variable {M α β : Type}

theorem bind_apply (m : Run M α) (f : α → Run M β) (s : RunState M) :
    (m >>= f) s = match m s with
      | (Except.ok a, s1) => f a s1
      | (Except.error e, s1) => (Except.error e, s1) :=
  rfl

theorem pure_apply (a : α) (s : RunState M) : (pure a : Run M α) s = (Except.ok a, s) :=
  rfl

theorem perform_apply (action : Action) (op : Except Exception α) (s : RunState M) :
    (perform action op : Run M α) s = (op, { s with actions := s.actions ++ [action] }) :=
  rfl

end Run

theorem Run.quiet_bind {M α β : Type} {m : Run M α} {f : α → Run M β} {version : Int}
    (hm : m.Quiet version) (hf : ∀ a, (f a).Quiet version) : (m >>= f).Quiet version := by
  intro s
  rw [Run.bind_apply]
  have h1 := hm s
  rcases hms : m s with ⟨out, s1⟩
  rw [hms] at h1
  cases out with
  | ok a => exact hf a s1
  | error e =>
    dsimp only at h1 ⊢
    intro h
    injection h with h
    exact h1 (by rw [h])

theorem Run.quiet_pure {M α : Type} (a : α) (version : Int) :
    (pure a : Run M α).Quiet version := by
  intro s h
  cases h

theorem Run.quiet_perform {M α : Type} (action : Action) {op : Except Exception α}
    {version : Int} (h : op ≠ Except.error (Bsp29Parser.unsupportedVersion version)) :
    (Run.perform action op : Run M α).Quiet version :=
  fun _ => h

theorem Run.quiet_performOnModel {M α : Type} (action : Action)
    {op : M → Except Exception α × M} {version : Int}
    (h : ∀ m, (op m).1 ≠ Except.error (Bsp29Parser.unsupportedVersion version)) :
    (Run.performOnModel action op : Run M α).Quiet version :=
  fun s => h s.model

theorem Run.Quiet.not_raised {M α : Type} {m : Run M α} {version : Int}
    (h : m.Quiet version) (s : RunState M) :
    ¬ (m s).1 = Except.error (Bsp29Parser.unsupportedVersion version) :=
  h s

namespace Bsp29Parser

variable {τ : Bsp29Types}

theorem initializeModel_version_check (c : Collaborators τ) (self : Bsp29Parser τ)
    (s : RunState τ.EntityModel) (v : Int) (rest : τ.Reader)
    (hread : c.readInt32 self.m_reader = Except.ok (v, rest))
    (hc : c.Quiet 29) :
    ((initializeModel c self s).1 = Except.error (unsupportedVersion v) ↔ v ≠ 29)
    ∧ (v ≠ 29 → initializeModel c self s
        = (Except.error (unsupportedVersion v),
            { actions := s.actions ++ [Action.readInt32], model := s.model })) := by
  unfold initializeModel
  simp only [Run.bind_apply, Run.perform_apply, hread]
  by_cases hv : v = 29
  · subst hv
    simp only [ne_eq, not_true_eq_false, ite_false, false_iff]
    refine ⟨iff_false_intro (Run.Quiet.not_raised ?_ _), False.elim⟩
    repeat first
      | exact Run.quiet_pure _ _
      | exact Run.quiet_perform _ (hc.readSize32 _)
      | exact Run.quiet_perform _ (hc.seekFromBegin _ _)
      | exact Run.quiet_perform _ (hc.subReaderFromBegin _ _)
      | exact Run.quiet_perform _ (hc.parseTextures _)
      | refine Run.quiet_bind ?_ (fun _ => ?_)
  · simp [hv, Run.raise]

theorem loadFrame_version_check (c : Collaborators τ) (self : Bsp29Parser τ) (frameIndex : Nat)
    (s : RunState τ.EntityModel) (v : Int) (rest : τ.Reader)
    (hread : c.readInt32 self.m_reader = Except.ok (v, rest))
    (hc : c.Quiet 29) :
    ((loadFrame c self frameIndex s).1 = Except.error (unsupportedVersion v) ↔ v ≠ 29)
    ∧ (v ≠ 29 → loadFrame c self frameIndex s
        = (Except.error (unsupportedVersion v),
            { actions := s.actions ++ [Action.readInt32], model := s.model })) := by
  unfold loadFrame
  simp only [Run.bind_apply, Run.perform_apply, hread]
  by_cases hv : v = 29
  · subst hv
    simp only [ne_eq, not_true_eq_false, ite_false, false_iff]
    refine ⟨iff_false_intro (Run.Quiet.not_raised ?_ _), False.elim⟩
    repeat first
      | exact Run.quiet_pure _ _
      | exact Run.quiet_perform _ (hc.readSize32 _)
      | exact Run.quiet_perform _ (hc.seekFromBegin _ _)
      | exact Run.quiet_perform _ (hc.subReaderFromBegin _ _)
      | exact Run.quiet_perform _ (hc.subReaderFromBeginLength _ _ _)
      | exact Run.quiet_perform _ (hc.parseTextureInfos _ _)
      | exact Run.quiet_perform _ (hc.parseVertices _ _)
      | exact Run.quiet_perform _ (hc.parseEdgeInfos _ _)
      | exact Run.quiet_perform _ (hc.parseFaceInfos _ _)
      | exact Run.quiet_perform _ (hc.parseFaceEdges _ _)
      | exact Run.quiet_performOnModel _ (fun _ => hc.parseFrame _ _ _ _ _ _ _ _)
      | refine Run.quiet_bind ?_ (fun _ => ?_)
  · simp [hv, Run.raise]

theorem wordCollaborators_quiet : wordCollaborators.Quiet 29 where
  readInt32 := by intro r; cases r <;> simp [wordCollaborators, unsupportedVersion]
  readSize32 := by intro r; cases r <;> simp [wordCollaborators, unsupportedVersion]
  seekFromBegin := by intro r n; simp [wordCollaborators]
  subReaderFromBegin := by intro r n; simp [wordCollaborators]
  subReaderFromBeginLength := by intro r n l; simp [wordCollaborators]
  parseTextures := by intro r; simp [wordCollaborators]
  parseTextureInfos := by intro r n; simp [wordCollaborators]
  parseVertices := by intro r n; simp [wordCollaborators]
  parseEdgeInfos := by intro r n; simp [wordCollaborators]
  parseFaceInfos := by intro r n; simp [wordCollaborators]
  parseFaceEdges := by intro r n; simp [wordCollaborators]
  parseFrame := by intro r i m ti vs ei fi fe; simp [wordCollaborators]

/-- C9: when the first 32-bit integer read from the parser's reader is `v`,
`initializeModel` and `loadFrame` raise `AssetException("Unsupported BSP model version: v")`
if and only if `v` is not 29, and when they raise it the read of `v` is the only action
performed and the model is the one passed in. -/
theorem unsupported_version_rejected (c : Collaborators τ) (self : Bsp29Parser τ)
    (frameIndex : Nat) (s : RunState τ.EntityModel) (v : Int) (rest : τ.Reader)
    (hread : c.readInt32 self.m_reader = Except.ok (v, rest))
    (hc : c.Quiet 29) :
    (((initializeModel c self s).1 = Except.error (unsupportedVersion v) ↔ v ≠ 29)
      ∧ (v ≠ 29 → initializeModel c self s
          = (Except.error (unsupportedVersion v),
              { actions := s.actions ++ [Action.readInt32], model := s.model })))
    ∧ (((loadFrame c self frameIndex s).1 = Except.error (unsupportedVersion v) ↔ v ≠ 29)
      ∧ (v ≠ 29 → loadFrame c self frameIndex s
          = (Except.error (unsupportedVersion v),
              { actions := s.actions ++ [Action.readInt32], model := s.model }))) :=
  ⟨initializeModel_version_check c self s v rest hread hc,
   loadFrame_version_check c self frameIndex s v rest hread hc⟩

theorem unsupported_version_rejected_witness :
    wordCollaborators.readInt32 version30Parser.m_reader = Except.ok (30, [0, 0])
    ∧ (initializeModel wordCollaborators version30Parser freshState).1
        = Except.error (Exception.AssetException "Unsupported BSP model version: 30")
    ∧ loadFrame wordCollaborators version30Parser 0 freshState
        = (Except.error (Exception.AssetException "Unsupported BSP model version: 30"),
            { actions := [Action.readInt32], model := [7] }) :=
  ⟨rfl,
   ((unsupported_version_rejected wordCollaborators version30Parser 0 freshState 30 [0, 0]
      rfl wordCollaborators_quiet).1.1).2 (by decide),
   (unsupported_version_rejected wordCollaborators version30Parser 0 freshState 30 [0, 0]
      rfl wordCollaborators_quiet).2.2 (by decide)⟩

/-- C10: `canParse(path, reader)` returns true if and only if the lower-cased extension of
`path` equals ".bsp" and the first 32-bit integer of `reader` equals 29; when the
extension does not match it returns false and performs no action on the reader. -/
theorem canParse_iff (c : Collaborators τ) (path : Path) (reader : τ.Reader)
    (s : RunState τ.EntityModel) :
    ((canParse c path reader s).1 = Except.ok true
        ↔ (str_to_lower path.extension = ".bsp"
            ∧ ∃ rest, c.readInt32 reader = Except.ok (29, rest)))
    ∧ (str_to_lower path.extension ≠ ".bsp" → canParse c path reader s = (Except.ok false, s)) := by
  unfold canParse
  by_cases hext : str_to_lower path.extension = ".bsp"
  · simp only [hext, ne_eq, not_true_eq_false, ite_false, true_and, false_imp_iff, and_true,
      Run.bind_apply, Run.perform_apply]
    rcases hr : c.readInt32 reader with e | ⟨version, rest⟩
    · simp
    · simp only [Run.pure_apply]
      constructor
      · intro h
        injection h with h
        have hv : version = 29 := of_decide_eq_true h
        exact ⟨rest, by rw [hv]⟩
      · rintro ⟨rest2, h⟩
        injection h with h
        have hv : version = 29 := congrArg Prod.fst h
        simp [hv]
  · simp only [hext, ne_eq, not_false_eq_true, ite_true, false_and, iff_false, true_imp_iff]
    exact ⟨by simp [Run.pure_apply], rfl⟩

theorem canParse_iff_witness :
    canParse wordCollaborators { extension := ".BSP" } [29, 1] freshState
        = (Except.ok true, { actions := [Action.readInt32], model := [7] })
    ∧ (canParse wordCollaborators { extension := ".BSP" } [29, 1] freshState).1 = Except.ok true
    ∧ (canParse wordCollaborators { extension := ".BSP" } [30, 1] freshState).1 = Except.ok false
    ∧ canParse wordCollaborators { extension := ".map" } [29, 1] freshState
        = (Except.ok false, freshState) :=
  ⟨rfl,
   (canParse_iff wordCollaborators { extension := ".BSP" } [29, 1] freshState).1.2
      ⟨by decide, [1], rfl⟩,
   rfl,
   (canParse_iff wordCollaborators { extension := ".map" } [29, 1] freshState).2 (by decide)⟩

end Bsp29Parser

end TrenchBroom

namespace tb

theorem static_cast_size_t_of_nonneg (n : Int) (h0 : 0 ≤ n) (h1 : n < 2 ^ 31) :
    static_cast_size_t n = n.toNat := by
  unfold static_cast_size_t
  rw [Int.emod_eq_of_lt h0 (by omega)]

/-- C8: `parseClassInfos` allows empty documents. If the XML parse reports
`XML_ERROR_EMPTY_DOCUMENT` it returns the empty list, raises nothing and leaves the status
as it was; if the parse reports any other error it raises a `ParserException` that carries
the error's line number and message, again without a warning; it returns what
`parseClassInfosFromDocument` returns when the parse reports no error, and whenever the
parse reports an error its outcome does not depend on `parseClassInfosFromDocument`. -/
theorem EntParser.parseClassInfos_outcome {Content ClassInfo : Type}
    (xmlParse : String → XMLDocument Content)
    (fromDocument : XMLDocument Content → ParserStatus →
      Except ParserException (List ClassInfo) × ParserStatus)
    (self : EntParser) (status : ParserStatus) :
    ((xmlParse self.m_str).errorID = XMLError.XML_ERROR_EMPTY_DOCUMENT →
        self.parseClassInfos xmlParse fromDocument status = (Except.ok [], status))
    ∧ ((xmlParse self.m_str).errorID ≠ XMLError.XML_SUCCESS →
        (xmlParse self.m_str).errorID ≠ XMLError.XML_ERROR_EMPTY_DOCUMENT →
        self.parseClassInfos xmlParse fromDocument status
          = (Except.error
              { location := { line := static_cast_size_t (xmlParse self.m_str).errorLineNum }
                what := (xmlParse self.m_str).errorStr },
             status)
        ∧ (0 ≤ (xmlParse self.m_str).errorLineNum → (xmlParse self.m_str).errorLineNum < 2 ^ 31 →
            static_cast_size_t (xmlParse self.m_str).errorLineNum
              = ((xmlParse self.m_str).errorLineNum).toNat))
    ∧ ((xmlParse self.m_str).errorID = XMLError.XML_SUCCESS →
        self.parseClassInfos xmlParse fromDocument status
          = fromDocument (xmlParse self.m_str) status)
    ∧ ((xmlParse self.m_str).errorID ≠ XMLError.XML_SUCCESS →
        ∀ other : XMLDocument Content → ParserStatus →
            Except ParserException (List ClassInfo) × ParserStatus,
          self.parseClassInfos xmlParse other status
            = self.parseClassInfos xmlParse fromDocument status) := by
  refine ⟨?_, ?_, ?_, ?_⟩
  · intro h
    simp [EntParser.parseClassInfos, XMLDocument.Error, h]
  · intro h1 h2
    refine ⟨?_, static_cast_size_t_of_nonneg _⟩
    simp [EntParser.parseClassInfos, XMLDocument.Error, h1, h2]
  · intro h
    simp [EntParser.parseClassInfos, XMLDocument.Error, h]
  · intro h other
    simp [EntParser.parseClassInfos, XMLDocument.Error, h]

theorem EntParser.parseClassInfos_outcome_witness :
    EntParser.parseClassInfos sampleParse sampleFromDocument { m_str := "" } { warnings := [] }
        = (Except.ok [], { warnings := [] })
    ∧ EntParser.parseClassInfos sampleParse sampleFromDocument { m_str := "x" } { warnings := [] }
        = (Except.error { location := { line := 3 }, what := "Error=XML_ERROR_PARSING_TEXT" },
            { warnings := [] })
    ∧ EntParser.parseClassInfos sampleParse sampleFromDocument { m_str := "<a/>" }
          { warnings := [] }
        = (Except.ok ["<a/>"], { warnings := [(none, "seen")] }) :=
  ⟨(EntParser.parseClassInfos_outcome sampleParse sampleFromDocument { m_str := "" }
      { warnings := [] }).1 rfl,
   ((EntParser.parseClassInfos_outcome sampleParse sampleFromDocument { m_str := "x" }
      { warnings := [] }).2.1 (by decide) (by decide)).1,
   (EntParser.parseClassInfos_outcome sampleParse sampleFromDocument { m_str := "<a/>" }
      { warnings := [] }).2.2.1 rfl⟩

end tb

namespace TrenchBroom
namespace Model

theorem VectorUtils.difference_nil_right (vec : BrushFaceList) :
    VectorUtils.difference vec [] = vec := by
  rw [VectorUtils.difference_eq_filter]
  simp

theorem VectorUtils.difference_nil_left (minus : BrushFaceList) :
    VectorUtils.difference [] minus = [] :=
  rfl

/-- C12: a `Result` constructed from a result code alone has empty `addedFaces` and
`droppedFaces`, and an empty delta `e` is a two-sided identity of `append` on the face
lists: `a.append(e)` leaves the lists of `a` unchanged, and `e.append(a)` makes the lists
of `e` equal to those of `a`. -/
theorem Result.append_empty_delta {T : Type} (code : T) (a e : Result T)
    (hA : e.addedFaces = []) (hD : e.droppedFaces = []) :
    ((Result.ofCode code).addedFaces = [] ∧ (Result.ofCode code).droppedFaces = [])
    ∧ ((a.append e).addedFaces = a.addedFaces ∧ (a.append e).droppedFaces = a.droppedFaces)
    ∧ ((e.append a).addedFaces = a.addedFaces ∧ (e.append a).droppedFaces = a.droppedFaces) := by
  refine ⟨⟨rfl, rfl⟩, ⟨?_, ?_⟩, ⟨?_, ?_⟩⟩
  · simp [Result.append, VectorUtils.concatenate, hA, hD, VectorUtils.difference_nil_right]
  · simp [Result.append, VectorUtils.concatenate, hA, hD, VectorUtils.difference_nil_right]
  · simp [Result.append, VectorUtils.concatenate, hA, hD, VectorUtils.difference_nil_left]
  · simp [Result.append, VectorUtils.concatenate, hA, hD, VectorUtils.difference_nil_left]

theorem Result.append_empty_delta_witness :
    (sampleStepA.append (Result.ofCode AddFaceResultCode.FaceIsRedundant)).addedFaces = [3]
    ∧ (sampleStepA.append (Result.ofCode AddFaceResultCode.FaceIsRedundant)).droppedFaces = [1]
    ∧ ((Result.ofCode AddFaceResultCode.FaceIsRedundant).append sampleStepA).addedFaces = [3]
    ∧ ((Result.ofCode AddFaceResultCode.FaceIsRedundant).append sampleStepA).droppedFaces = [1] :=
  ⟨(Result.append_empty_delta AddFaceResultCode.BrushIsNull sampleStepA
      (Result.ofCode AddFaceResultCode.FaceIsRedundant) rfl rfl).2.1.1,
   (Result.append_empty_delta AddFaceResultCode.BrushIsNull sampleStepA
      (Result.ofCode AddFaceResultCode.FaceIsRedundant) rfl rfl).2.1.2,
   (Result.append_empty_delta AddFaceResultCode.BrushIsNull sampleStepA
      (Result.ofCode AddFaceResultCode.FaceIsRedundant) rfl rfl).2.2.1,
   (Result.append_empty_delta AddFaceResultCode.BrushIsNull sampleStepA
      (Result.ofCode AddFaceResultCode.FaceIsRedundant) rfl rfl).2.2.2⟩

/-- C13: `append` is associative up to set membership. For all results `a`, `b`, `c` the
sets of faces in `addedFaces` and in `droppedFaces` after appending `b` and then `c` to `a`
equal those after appending `b.append(c)` to `a`; as lists the groupings can differ: with
`a` adding face 1, `b` dropping it and `c` adding it again, face 1 occurs once in
`addedFaces` of the first grouping and twice in the second. -/
theorem Result.append_assoc_as_sets {T : Type} :
    (∀ a b c : Result T,
      faceSet ((a.append b).append c).addedFaces = faceSet (a.append (b.append c)).addedFaces
      ∧ faceSet ((a.append b).append c).droppedFaces
          = faceSet (a.append (b.append c)).droppedFaces)
    ∧ (((addsFaceOne.append dropsFaceOne).append addsFaceOne).addedFaces = [1]
      ∧ (addsFaceOne.append (dropsFaceOne.append addsFaceOne)).addedFaces = [1, 1]
      ∧ List.count 1 ((addsFaceOne.append dropsFaceOne).append addsFaceOne).addedFaces = 1
      ∧ List.count 1 (addsFaceOne.append (dropsFaceOne.append addsFaceOne)).addedFaces = 2) := by
  refine ⟨fun a b c => ⟨?_, ?_⟩, ⟨rfl, rfl, by decide, by decide⟩⟩
  · ext f
    simp only [mem_faceSet, Result.mem_append_addedFaces, Result.mem_append_droppedFaces]
    tauto
  · ext f
    simp only [mem_faceSet, Result.mem_append_addedFaces, Result.mem_append_droppedFaces]
    tauto

/-- C14: `append` changes only the two face lists. After `a.append(b)` the result code of
`a` is the one it had before, whatever the result code of `b` is, and `b` is as it was
before the call. -/
theorem Result.append_frame {T : Type} (a b : Result T) :
    (Result.appendCall (a, b)).1.resultCode = a.resultCode
    ∧ (Result.appendCall (a, b)).2 = b
    ∧ (a.append b).resultCode = a.resultCode
    ∧ (∀ code : T, (a.append { b with resultCode := code }).resultCode = a.resultCode) :=
  ⟨rfl, rfl, rfl, fun _ => rfl⟩

end Model
end TrenchBroom

namespace tb

variable {τ : EntTypes}

theorem expectAttribute_of_hasAttribute (element : XMLElement) (attributeName : String)
    (status : ParserStatus) (h : hasAttribute element attributeName = true) :
    expectAttribute element attributeName status = (true, status) := by
  simp [expectAttribute, h]

theorem parsePropertyDefinitionWith_of_attributes (element : XMLElement)
    (factory : PropertyDefinitionFactory τ) (status : ParserStatus)
    (hkey : hasAttribute element "key" = true) (hname : hasAttribute element "name" = true) :
    parsePropertyDefinitionWith element factory status
      = (some (factory (parseString element "key") (parseString element "name")
            (getText element) status).1,
         (factory (parseString element "key") (parseString element "name")
            (getText element) status).2) := by
  simp [parsePropertyDefinitionWith, expectAttribute_of_hasAttribute, hkey, hname]

theorem parseBoolean_ne_none (c : EntCollaborators τ) (element : XMLElement)
    (attributeName : String) : parseBoolean c element attributeName ≠ none := by
  unfold parseBoolean
  simp only
  split
  · simp
  · split
    · simp
    · cases c.str_to_int (getAttribute element attributeName) with
      | none => simp [optional_ne]
      | some n =>
        by_cases hn : n = 0
        · simp [optional_ne, optional_eq, hn]
        · simp [optional_ne, hn]

theorem parseBoolean_of_valid (c : EntCollaborators τ) (element : XMLElement)
    (attributeName : String) :
    (ci_str_is_equal (getAttribute element attributeName) "true" = true →
      parseBoolean c element attributeName = some true)
    ∧ (ci_str_is_equal (getAttribute element attributeName) "true" = false →
        ci_str_is_equal (getAttribute element attributeName) "false" = true →
        parseBoolean c element attributeName = some false)
    ∧ (∀ n : Int, ci_str_is_equal (getAttribute element attributeName) "true" = false →
        ci_str_is_equal (getAttribute element attributeName) "false" = false →
        c.str_to_int (getAttribute element attributeName) = some n →
        parseBoolean c element attributeName = some (decide (n ≠ 0))) := by
  refine ⟨?_, ?_, ?_⟩
  · intro h
    simp [parseBoolean, h]
  · intro h1 h2
    simp [parseBoolean, h1, h2]
  · intro n h1 h2 h3
    by_cases hn : n = 0
    · simp [parseBoolean, h1, h2, h3, optional_ne, optional_eq, hn]
    · simp [parseBoolean, h1, h2, h3, optional_ne, hn]

theorem parseBooleanPropertyDefinition_of_value (c : EntCollaborators τ)
    (element : XMLElement) (status : ParserStatus) (defaultValue : Bool)
    (hkey : hasAttribute element "key" = true)
    (hname : hasAttribute element "name" = true)
    (hvalue : hasAttribute element "value" = true)
    (hb : parseBoolean c element "value" = some defaultValue) :
    parseBooleanPropertyDefinition c element status
      = (some (PropertyDefinition.BooleanPropertyDefinition (getAttribute element "key")
            (getAttribute element "name") (getText element) false (some defaultValue)),
         status) := by
  unfold parseBooleanPropertyDefinition
  rw [parsePropertyDefinitionWith_of_attributes element _ status hkey hname]
  simp [hvalue, hb, parseString]

/-- C15, what the code does where the claim expects a warning: for a `boolean` element
with `key`, `name` and `value` attributes whose value is neither "true" nor "false"
(case-insensitively) nor parseable as an integer, `parseBoolean` returns `true`, and
`parseBooleanPropertyDefinition` returns a `BooleanPropertyDefinition` with default value
`true` and leaves the status as it was, so no warning is emitted and no
`UnknownPropertyDefinition` is returned. -/
theorem parseBooleanPropertyDefinition_invalid_default (c : EntCollaborators τ)
    (element : XMLElement) (status : ParserStatus)
    (hkey : hasAttribute element "key" = true)
    (hname : hasAttribute element "name" = true)
    (hvalue : hasAttribute element "value" = true)
    (htrue : ci_str_is_equal (getAttribute element "value") "true" = false)
    (hfalse : ci_str_is_equal (getAttribute element "value") "false" = false)
    (hint : c.str_to_int (getAttribute element "value") = none) :
    parseBoolean c element "value" = some true
    ∧ parseBooleanPropertyDefinition c element status
        = (some (PropertyDefinition.BooleanPropertyDefinition (getAttribute element "key")
              (getAttribute element "name") (getText element) false (some true)),
           status) := by
  have hb : parseBoolean c element "value" = some true := by
    simp [parseBoolean, htrue, hfalse, hint, optional_ne]
  refine ⟨hb, ?_⟩
  unfold parseBooleanPropertyDefinition
  rw [parsePropertyDefinitionWith_of_attributes element _ status hkey hname]
  simp [hvalue, hb, parseString]

theorem parseBooleanPropertyDefinition_invalid_default_witness :
    parseBoolean sampleEntCollaborators invalidBooleanElement "value" = some true
    ∧ parseBooleanPropertyDefinition sampleEntCollaborators invalidBooleanElement
          { warnings := [] }
        = (some (PropertyDefinition.BooleanPropertyDefinition "solid" "Solid" "" false
              (some true)),
           { warnings := [] })
    ∧ (parseIntegerPropertyDefinition sampleEntCollaborators invalidBooleanElement
          { warnings := [] }).2
        = { warnings :=
              [(some { line := 3 },
                "Invalid default value 'maybe' for integer property definition: boolean")] } :=
  ⟨(parseBooleanPropertyDefinition_invalid_default sampleEntCollaborators invalidBooleanElement
      { warnings := [] } rfl rfl rfl rfl rfl rfl).1,
   (parseBooleanPropertyDefinition_invalid_default sampleEntCollaborators invalidBooleanElement
      { warnings := [] } rfl rfl rfl rfl rfl rfl).2,
   rfl⟩

theorem parsePointClassInfo_of_model (c : EntCollaborators τ) (element : XMLElement)
    (propertyDeclarations : List (PropertyDefinition τ.Float)) (status : ParserStatus)
    (modelDefinition : ModelDefinition τ.Expression)
    (h : parseModel c element = Except.ok modelDefinition) :
    ∃ classInfo status1,
      parsePointClassInfo c element propertyDeclarations status = (Except.ok classInfo, status1)
      ∧ classInfo.header = (EntityDefinitionClassType.PointClass, getAttribute element "name") := by
  unfold parsePointClassInfo
  simp only [h]
  exact ⟨_, _, rfl, rfl⟩

theorem parsePointClassInfo_of_raise (c : EntCollaborators τ) (element : XMLElement)
    (propertyDeclarations : List (PropertyDefinition τ.Float)) (status : ParserStatus)
    (e : ParserException) (h : parseModel c element = Except.error e) :
    parsePointClassInfo c element propertyDeclarations status
      = (Except.error e, (parseBounds c element "box" status).2) := by
  unfold parsePointClassInfo
  simp only [h]

theorem parseBrushClassInfo_header (c : EntCollaborators τ) (element : XMLElement)
    (propertyDeclarations : List (PropertyDefinition τ.Float)) (status : ParserStatus) :
    (parseBrushClassInfo c element propertyDeclarations status).1.header
      = (EntityDefinitionClassType.BrushClass, getAttribute element "name") :=
  rfl

theorem parseClassInfosLoop_headers (c : EntCollaborators τ) (elements : List XMLElement) :
    ∀ (result : List (EntityDefinitionClassInfo τ))
      (propertyDeclarations : List (PropertyDefinition τ.Float)) (status : ParserStatus),
      (∀ element ∈ elements, getName element = "point" →
        ∀ e, parseModel c element ≠ Except.error e) →
      ∃ classInfos status1,
        parseClassInfosLoop c elements result propertyDeclarations status
          = (Except.ok classInfos, status1)
        ∧ classInfos.map EntityDefinitionClassInfo.header
            = result.map EntityDefinitionClassInfo.header
                ++ elements.filterMap expectedClassHeader := by
  induction elements with
  | nil =>
    intro result propertyDeclarations status _
    exact ⟨result, status, rfl, by simp⟩
  | cons element rest ih =>
    intro result propertyDeclarations status hmodel
    have hrest : ∀ element ∈ rest, getName element = "point" →
        ∀ e, parseModel c element ≠ Except.error e :=
      fun x hx => hmodel x (List.mem_cons_of_mem _ hx)
    unfold parseClassInfosLoop
    by_cases hpoint : getName element = "point"
    · have hname : element.name = "point" := hpoint
      have hok : ∃ modelDefinition, parseModel c element = Except.ok modelDefinition := by
        cases hm : parseModel c element with
        | error e => exact absurd hm (hmodel element (List.mem_cons_self _ _) hpoint e)
        | ok modelDefinition => exact ⟨modelDefinition, rfl⟩
      obtain ⟨modelDefinition, hm⟩ := hok
      obtain ⟨classInfo, status1, hparse, hheader⟩ :=
        parsePointClassInfo_of_model c element propertyDeclarations status modelDefinition hm
      obtain ⟨classInfos, status2, hloop, hmap⟩ :=
        ih (result ++ [classInfo]) propertyDeclarations status1 hrest
      refine ⟨classInfos, status2, ?_, ?_⟩
      · simp only [hpoint, true_or, if_true, parseClassInfo, hparse]
        exact hloop
      · rw [hmap]
        simp [expectedClassHeader, hname, hheader]
    · have hname : ¬ element.name = "point" := hpoint
      by_cases hgroup : getName element = "group"
      · have hname2 : element.name = "group" := hgroup
        obtain ⟨classInfos, status2, hloop, hmap⟩ :=
          ih (result ++ [(parseBrushClassInfo c element propertyDeclarations status).1])
            propertyDeclarations (parseBrushClassInfo c element propertyDeclarations status).2
            hrest
        refine ⟨classInfos, status2, ?_, ?_⟩
        · simp only [hpoint, hgroup, or_true, if_true, if_false, parseClassInfo]
          exact hloop
        · rw [hmap]
          simp [expectedClassHeader, hname, hname2, parseBrushClassInfo_header]
      · have hname2 : ¬ element.name = "group" := hgroup
        simp only [hpoint, hgroup, or_self, if_false]
        have hhead : (element :: rest).filterMap expectedClassHeader
            = rest.filterMap expectedClassHeader := by
          simp [expectedClassHeader, hname, hname2]
        rw [hhead]
        rcases hdecl : parsePropertyDeclaration (τ := τ) element status with ⟨decl, status1⟩
        cases decl with
        | none => exact ih result propertyDeclarations status1 hrest
        | some propertyDeclaration =>
          simp only
          split
          · exact ih result _ _ hrest
          · exact ih result _ _ hrest

theorem parseClassInfosLoop_raises (c : EntCollaborators τ) (elements : List XMLElement) :
    ∀ (result : List (EntityDefinitionClassInfo τ))
      (propertyDeclarations : List (PropertyDefinition τ.Float)) (status : ParserStatus),
      (∃ element ∈ elements, getName element = "point" ∧
        ∃ e, parseModel c element = Except.error e) →
      ∃ e status1,
        parseClassInfosLoop c elements result propertyDeclarations status
          = (Except.error e, status1) := by
  induction elements with
  | nil =>
    intro result propertyDeclarations status h
    obtain ⟨element, hmem, _⟩ := h
    cases hmem
  | cons element rest ih =>
    intro result propertyDeclarations status h
    unfold parseClassInfosLoop
    by_cases hpoint : getName element = "point"
    · cases hm : parseModel c element with
      | error e =>
        refine ⟨e, (parseBounds c element "box" status).2, ?_⟩
        simp only [hpoint, true_or, if_true, parseClassInfo,
          parsePointClassInfo_of_raise c element propertyDeclarations status e hm]
      | ok modelDefinition =>
        have hrest : ∃ x ∈ rest, getName x = "point" ∧ ∃ e, parseModel c x = Except.error e := by
          obtain ⟨x, hx, hxp, e, hxe⟩ := h
          rcases List.mem_cons.1 hx with rfl | hx
          · rw [hm] at hxe
            cases hxe
          · exact ⟨x, hx, hxp, e, hxe⟩
        obtain ⟨classInfo, status1, hparse, _⟩ :=
          parsePointClassInfo_of_model c element propertyDeclarations status modelDefinition hm
        simp only [hpoint, true_or, if_true, parseClassInfo, hparse]
        exact ih _ _ _ hrest
    · have hrest : ∃ x ∈ rest, getName x = "point" ∧ ∃ e, parseModel c x = Except.error e := by
        obtain ⟨x, hx, hxp, e, hxe⟩ := h
        rcases List.mem_cons.1 hx with rfl | hx
        · exact absurd hxp hpoint
        · exact ⟨x, hx, hxp, e, hxe⟩
      by_cases hgroup : getName element = "group"
      · simp only [hpoint, hgroup, or_true, if_true, if_false, parseClassInfo]
        exact ih _ _ _ hrest
      · simp only [hpoint, hgroup, or_self, if_false]
        rcases hdecl : parsePropertyDeclaration (τ := τ) element status with ⟨decl, status1⟩
        cases decl with
        | none => exact ih result propertyDeclarations status1 hrest
        | some propertyDeclaration =>
          simp only
          split
          · exact ih result _ _ hrest
          · exact ih result _ _ hrest

/-- The child elements of the first top-level element `classes` of a document; none when
there is no such element. -/
theorem expectedClassHeaders_of_classes (document : XMLDocument (List XMLNode))
    (classesNode : XMLElement)
    (h : firstChildElementNamed document "classes" = some classesNode) :
    expectedClassHeaders document = classesNode.childElements.filterMap expectedClassHeader := by
  simp [expectedClassHeaders, h]

/-- C11 fails as stated: for the document
`<classes><point name="light" model="[1][2]"/><group name="door"/></classes>`, whose model
expression ends in an evaluation error, `parseClassInfosFromDocument` raises a
`ParserException` and returns no list, although the document has a `point` and a `group`
child. -/
theorem parseClassInfosFromDocument_counterexample :
    expectedClassHeaders failingModelDocument
        = [(EntityDefinitionClassType.PointClass, "light"),
           (EntityDefinitionClassType.BrushClass, "door")]
    ∧ (parseClassInfosFromDocument sampleEntCollaborators failingModelDocument
          { warnings := [] }).1
        = Except.error { location := { line := 2 }, what := "Index out of bounds" }
    ∧ ¬ ∃ classInfos,
        (parseClassInfosFromDocument sampleEntCollaborators failingModelDocument
          { warnings := [] }).1 = Except.ok classInfos
        ∧ classInfos.map EntityDefinitionClassInfo.header
            = expectedClassHeaders failingModelDocument := by
  have h : (parseClassInfosFromDocument sampleEntCollaborators failingModelDocument
      { warnings := [] }).1
        = Except.error { location := { line := 2 }, what := "Index out of bounds" } := rfl
  refine ⟨rfl, h, ?_⟩
  rintro ⟨classInfos, hok, _⟩
  rw [h] at hok
  cases hok

/-- C11 as amended: when `parseModel` raises for no `point` child of the element
`classes`, `parseClassInfosFromDocument` returns exactly one class info for each child
element of `classes` that is named `point` or `group`, in document order, with type
`PointClass` for `point` and `BrushClass` for `group` and the name taken from the `name`
attribute; other children contribute no class info, and a document without an element
`classes` yields the empty list. When `parseModel` raises for a `point` child, it raises a
`ParserException` and returns no list. -/
theorem parseClassInfosFromDocument_headers (c : EntCollaborators τ)
    (document : XMLDocument (List XMLNode)) (status : ParserStatus) :
    ((∀ classesNode, firstChildElementNamed document "classes" = some classesNode →
        ∀ element ∈ classesNode.childElements, getName element = "point" →
          ∀ e, parseModel c element ≠ Except.error e) →
      ∃ classInfos status1,
        parseClassInfosFromDocument c document status = (Except.ok classInfos, status1)
        ∧ classInfos.map EntityDefinitionClassInfo.header = expectedClassHeaders document)
    ∧ (firstChildElementNamed document "classes" = none →
        parseClassInfosFromDocument c document status = (Except.ok [], status))
    ∧ ((∃ classesNode, firstChildElementNamed document "classes" = some classesNode ∧
          ∃ element ∈ classesNode.childElements, getName element = "point" ∧
            ∃ e, parseModel c element = Except.error e) →
        ∃ e status1, parseClassInfosFromDocument c document status = (Except.error e, status1)) := by
  refine ⟨?_, ?_, ?_⟩
  · intro hmodel
    unfold parseClassInfosFromDocument
    cases hc : firstChildElementNamed document "classes" with
    | none => exact ⟨[], status, rfl, by simp [expectedClassHeaders, hc]⟩
    | some classesNode =>
      obtain ⟨classInfos, status1, hloop, hmap⟩ :=
        parseClassInfosLoop_headers c classesNode.childElements [] [] status
          (hmodel classesNode hc)
      refine ⟨classInfos, status1, hloop, ?_⟩
      rw [hmap, expectedClassHeaders_of_classes document classesNode hc]
      simp
  · intro hc
    simp [parseClassInfosFromDocument, hc]
  · rintro ⟨classesNode, hc, hraise⟩
    unfold parseClassInfosFromDocument
    simp only [hc]
    exact parseClassInfosLoop_raises c classesNode.childElements [] [] status hraise

theorem parseClassInfosFromDocument_headers_witness :
    expectedClassHeaders sampleClassesDocument
        = [(EntityDefinitionClassType.PointClass, "light"),
           (EntityDefinitionClassType.BrushClass, "door")]
    ∧ (∃ classInfos status1,
        parseClassInfosFromDocument sampleEntCollaborators sampleClassesDocument
            { warnings := [] } = (Except.ok classInfos, status1)
        ∧ classInfos.map EntityDefinitionClassInfo.header
            = expectedClassHeaders sampleClassesDocument)
    ∧ (∃ e status1,
        parseClassInfosFromDocument sampleEntCollaborators failingModelDocument
            { warnings := [] } = (Except.error e, status1)) :=
  ⟨rfl,
   (parseClassInfosFromDocument_headers sampleEntCollaborators sampleClassesDocument
      { warnings := [] }).1
    (by
      intro classesNode h element hmem hpoint e
      have h2 : firstChildElementNamed sampleClassesDocument "classes"
          = some { name := "classes", lineNum := 1, attributes := [],
                   children :=
                    [XMLNode.element "point" 2 [("name", "light"), ("model", "light.md3")] [],
                     XMLNode.element "list" 3 [("name", "kinds")] [],
                     XMLNode.element "group" 4 [("name", "door")] []] } := rfl
      rw [h2] at h
      injection h with h
      subst h
      simp only [XMLElement.childElements, List.filterMap_cons, XMLNode.ToElement,
        List.filterMap_nil, List.mem_cons, List.mem_singleton] at hmem
      rcases hmem with rfl | rfl | rfl | hfalse
      · intro hm
        have hv : parseModel sampleEntCollaborators
            { name := "point", lineNum := 2,
              attributes := [("name", "light"), ("model", "light.md3")], children := [] }
            = Except.ok (ModelDefinition.ofLiteralPath "light.md3" { line := 2 }) := rfl
        rw [hv] at hm
        cases hm
      · exact absurd hpoint (by decide)
      · exact absurd hpoint (by decide)
      · cases hfalse),
   (parseClassInfosFromDocument_headers sampleEntCollaborators failingModelDocument
      { warnings := [] }).2.2
    ⟨{ name := "classes", lineNum := 1, attributes := [],
       children :=
        [XMLNode.element "point" 2 [("name", "light"), ("model", "[1][2]")] [],
         XMLNode.element "group" 3 [("name", "door")] []] },
     rfl,
     { name := "point", lineNum := 2, attributes := [("name", "light"), ("model", "[1][2]")],
       children := [] },
     by simp [XMLElement.childElements, XMLNode.ToElement],
     rfl,
     { location := { line := 2 }, what := "Index out of bounds" },
     rfl⟩⟩

end tb
